import Mathlib

/-!
The 8051 UART frame receiver, field scanner and command dispatcher.

A shallow embedding of `8051UART/code/main.c`.

* Bytes (`char`) are natural numbers; the buffer `rx_buffer` is a list of 40 bytes.
  A read outside the list yields `0` and a write outside it is dropped; neither
  happens in a state the running system reaches (`rx_index_capacity`).
* `int` is the 16-bit two's-complement integer of the 8051 C compilers: every
  arithmetic result is reduced by `wrap16`; `%` is C's remainder `Int.tmod`, whose
  sign follows the dividend.
* A `char *` into `rx_buffer` is the index it points at.
* The special function registers `RI` and `SBUF` are inputs of `Serial_ISR`; the
  port pins and the transmitted characters are recorded, in order, in `trace`.
-/

namespace UART8051

/-! ## Machine integers -/

/-- The value of a 16-bit two's-complement `int` holding the mathematical result `x`. -/
def wrap16 (x : Int) : Int := (x + 32768) % 65536 - 32768

/-- C's `a % b` on `int`: the remainder of the division truncated toward zero. -/
def cRem (a b : Int) : Int := Int.tmod a b

/-! ## State -/

/-- The four port pins `P2^0 .. P2^3`. -/
inductive Pin where
  | PUMP
  | LIGHT
  | FEEDER
  | DISP
  deriving DecidableEq

/-- An externally visible effect: a character handed to the UART, a level written
to a port pin, or a busy-wait delay. -/
inductive Effect where
  | tx (dat : Char)
  | pin (p : Pin) (level : Bool)
  | delay (ms : Nat)
  deriving DecidableEq

/-- The globals of `main.c`, the four `sbit` outputs and the record of effects. -/
structure State where
  rx_buffer : List Nat
  rx_index : Nat
  frame_received : Bool
  LED_PUMP : Bool
  LED_LIGHT : Bool
  LED_FEEDER : Bool
  LED_DISP : Bool
  trace : List Effect
  deriving DecidableEq

/-- The four actuator output levels (pump, light, feeder, display). -/
def State.leds (s : State) : Bool × Bool × Bool × Bool :=
  (s.LED_PUMP, s.LED_LIGHT, s.LED_FEEDER, s.LED_DISP)

/-- The characters transmitted so far, in order. -/
def uartOut : List Effect → List Char
  | [] => []
  | Effect.tx c :: es => c :: uartOut es
  | _ :: es => uartOut es

/-! ## Transport and delay -/

/-- The function `UART_TxChar(dat)`: hands one character to the transmitter. -/
def UART_TxChar (dat : Char) (s : State) : State :=
  { s with trace := s.trace ++ [Effect.tx dat] }

/-- The function `UART_SendString(str)`: `while(*str) UART_TxChar(*str++);`. -/
def UART_SendString : List Char → State → State
  | [], s => s
  | c :: str, s => if c = Char.ofNat 0 then s else UART_SendString str (UART_TxChar c s)

/-- The function `DelayMs(ms)`: a busy-wait, recorded as a request for `ms` milliseconds. -/
def DelayMs (ms : Nat) (s : State) : State :=
  { s with trace := s.trace ++ [Effect.delay ms] }

/-- Assignment to `LED_PUMP`. -/
def set_LED_PUMP (b : Bool) (s : State) : State :=
  { s with LED_PUMP := b, trace := s.trace ++ [Effect.pin Pin.PUMP b] }

/-- Assignment to `LED_LIGHT`. -/
def set_LED_LIGHT (b : Bool) (s : State) : State :=
  { s with LED_LIGHT := b, trace := s.trace ++ [Effect.pin Pin.LIGHT b] }

/-- Assignment to `LED_FEEDER`. -/
def set_LED_FEEDER (b : Bool) (s : State) : State :=
  { s with LED_FEEDER := b, trace := s.trace ++ [Effect.pin Pin.FEEDER b] }

/-- Assignment to `LED_DISP`. -/
def set_LED_DISP (b : Bool) (s : State) : State :=
  { s with LED_DISP := b, trace := s.trace ++ [Effect.pin Pin.DISP b] }

/-! ## Field scanner -/

/-- The loop `while(*s == ',') s++;` of `Parse_Int`; the first argument is the memory
from `s` on, and a read past its end yields 0. -/
def skipCommasFrom : List Nat → Nat → Nat
  | c :: mem, s => if c = 44 then skipCommasFrom mem (s + 1) else s
  | [], s => s

/-- The loop `while(*s >= '0' && *s <= '9')` of `Parse_Int`, whose body is
`val = (val * 10) + (*s - '0'); s++;`; the first argument is the memory from `s` on,
and a read past its end yields 0. -/
def readDigitsFrom : List Nat → Int → Nat → Int × Nat
  | c :: mem, val, s =>
    if 48 ≤ c ∧ c ≤ 57 then readDigitsFrom mem (wrap16 (val * 10 + ((c : Int) - 48))) (s + 1)
    else (val, s)
  | [], val, s => (val, s)

/-- The function `Parse_Int(&ptr)`: the returned `int` and the new value of `*str`. -/
def Parse_Int (buf : List Nat) (str : Nat) : Int × Nat :=
  if buf.getD str 0 = 0 then (-1, str)
  else
    let s := skipCommasFrom (buf.drop str) str
    readDigitsFrom (buf.drop s) 0 s

/-! ## Command processor -/

/-- The code at label `CHECKSUM_ERR`. -/
def CHECKSUM_ERR (s : State) : State :=
  UART_SendString ("<ERR>").toList (UART_SendString ("ERR: Checksum Fail\r\n").toList s)

/-- The function `Process_Frame()`; the local `ptr` starts at index 0 of `rx_buffer`
and `r0`, `r1`, ... are the results of the successive calls `Parse_Int(&ptr)`. -/
def Process_Frame (s : State) : State :=
  let buf := s.rx_buffer
  let r0 := Parse_Int buf 0
  let deviceCode := r0.1
  if deviceCode = -1 then s
  else
    let r1 := Parse_Int buf r0.2
    let stateCode := r1.1
    if deviceCode = 1 then
      let r2 := Parse_Int buf r1.2
      let checksum_received := r2.1
      let calculated_sum := cRem (wrap16 (deviceCode + stateCode)) 256
      if calculated_sum = checksum_received then
        UART_SendString ("<ACK>").toList
          (UART_SendString ("ACK: Pump Updated\r\n").toList
            (set_LED_PUMP (if stateCode = 1 then false else true) s))
      else CHECKSUM_ERR s
    else if deviceCode = 2 then
      let r2 := Parse_Int buf r1.2
      let val1 := r2.1
      let r3 := Parse_Int buf r2.2
      let checksum_received := r3.1
      let calculated_sum := cRem (wrap16 (wrap16 (deviceCode + stateCode) + val1)) 256
      if calculated_sum = checksum_received then
        UART_SendString ("<ACK>").toList
          (UART_SendString ("UPDATED\r\n").toList
            (UART_SendString ("ACK: Light Set. Brightness: ").toList
              (set_LED_LIGHT (decide (stateCode = 1)) s)))
      else CHECKSUM_ERR s
    else if deviceCode = 3 then
      let r2 := Parse_Int buf r1.2
      let val1 := r2.1
      let r3 := Parse_Int buf r2.2
      let checksum_received := r3.1
      let calculated_sum := cRem (wrap16 (wrap16 (deviceCode + stateCode) + val1)) 256
      if calculated_sum = checksum_received then
        UART_SendString ("<ACK>").toList
          (UART_SendString ("ACK: Feeding Done\r\n").toList
            (set_LED_FEEDER false (DelayMs 500 (set_LED_FEEDER true s))))
      else CHECKSUM_ERR s
    else if deviceCode = 5 then
      let r2 := Parse_Int buf r1.2
      let val1 := r2.1
      let r3 := Parse_Int buf r2.2
      let val2 := r3.1
      let r4 := Parse_Int buf r3.2
      let val3 := r4.1
      let r5 := Parse_Int buf r4.2
      let checksum_received := r5.1
      let calculated_sum :=
        cRem (wrap16 (wrap16 (wrap16 (wrap16 (deviceCode + stateCode) + val1) + val2) + val3)) 256
      if calculated_sum = checksum_received then
        UART_SendString ("<ACK>").toList
          (UART_SendString ("ACK: Display Schedule Updated\r\n").toList
            (set_LED_DISP (!s.LED_DISP) s))
      else CHECKSUM_ERR s
    else
      UART_SendString ("<ERR>").toList (UART_SendString ("ERR: Unknown Device\r\n").toList s)

/-! ## Receive interrupt and idle loop -/

/-- The handler `Serial_ISR()` entered with receive flag `RI` and received byte `SBUF`;
60 is `<` and 62 is `>`. -/
def Serial_ISR (RI : Bool) (SBUF : Nat) (s : State) : State :=
  if RI then
    let c := SBUF
    if c = 60 then { s with rx_index := 0 }
    else if c = 62 then
      { s with rx_buffer := s.rx_buffer.set s.rx_index 0, frame_received := true }
    else if s.rx_index < 39 then
      { s with rx_buffer := s.rx_buffer.set s.rx_index c, rx_index := (s.rx_index + 1) % 256 }
    else s
  else s

/-- One pass through the body of `while(1)` in `main`. -/
def main_loop (s : State) : State :=
  if s.frame_received then
    { Process_Frame s with frame_received := false, rx_index := 0 }
  else s

/-- The state in which `main` enters `while(1)`: zero-initialised globals, the
welcome message sent and `P2 = 0xFF`. -/
def main_init : State :=
  UART_SendString ("SYSTEM READY. Type frame like: <01,01,02>\r\n").toList
    { rx_buffer := List.replicate 40 0, rx_index := 0, frame_received := false,
      LED_PUMP := true, LED_LIGHT := true, LED_FEEDER := true, LED_DISP := true,
      trace := [] }

/-- The bytes of a text. -/
def bytes (t : String) : List Nat := t.toList.map Char.toNat

/-- A buffer of 40 bytes holding the null-terminated string `p` (for `p` of at most
39 bytes), the remaining bytes being zero. -/
def frameBuf (p : List Nat) : List Nat := p ++ List.replicate (40 - p.length) 0

/-- The state of a board whose buffer holds the frame payload `p`, marked ready:
all four pins high as after `P2 = 0xFF`, nothing transmitted yet. -/
def frameState (p : List Nat) : State :=
  { rx_buffer := frameBuf p, rx_index := p.length, frame_received := true,
    LED_PUMP := true, LED_LIGHT := true, LED_FEEDER := true, LED_DISP := true,
    trace := [] }

/-! ## Vocabulary of the specification -/

/-- The result of the `n`-th further scan after a first scan at `pos`. -/
def scanFrom (buf : List Nat) (pos : Nat) : Nat → Int × Nat
  | 0 => Parse_Int buf pos
  | n + 1 => Parse_Int buf (scanFrom buf pos n).2

/-- The value of the `n`-th field scanned from the start of the buffer: field 0 is
the device code, field 1 the state code, and so on. -/
def field (buf : List Nat) (n : Nat) : Int := (scanFrom buf 0 n).1

/-- Whether a byte is an ASCII digit. -/
def isDigit (c : Nat) : Bool := decide (48 ≤ c ∧ c ≤ 57)

/-- The base-10 value of a digit text. -/
def decimalValue (ds : List Nat) : Nat := ds.foldl (fun v c => v * 10 + (c - 48)) 0

/-- The digit text of the field at `pos`: the digits that follow the commas at `pos`. -/
def fieldDigits (buf : List Nat) (pos : Nat) : List Nat :=
  ((buf.drop pos).dropWhile (fun c => decide (c = 44))).takeWhile isDigit

/-- The checksum as the specification words it: the sum reduced modulo 256, a value
in `0..255`. -/
def specChecksum (xs : List Int) : Int := xs.sum % 256

/-- The body of `Process_Frame` after its scans: `f n` is the value returned by the
`n`-th call of `Parse_Int`. -/
def Process_Frame_on (f : Nat → Int) (s : State) : State :=
  if f 0 = -1 then s
  else if f 0 = 1 then
    if cRem (wrap16 (f 0 + f 1)) 256 = f 2 then
      UART_SendString ("<ACK>").toList
        (UART_SendString ("ACK: Pump Updated\r\n").toList
          (set_LED_PUMP (if f 1 = 1 then false else true) s))
    else CHECKSUM_ERR s
  else if f 0 = 2 then
    if cRem (wrap16 (wrap16 (f 0 + f 1) + f 2)) 256 = f 3 then
      UART_SendString ("<ACK>").toList
        (UART_SendString ("UPDATED\r\n").toList
          (UART_SendString ("ACK: Light Set. Brightness: ").toList
            (set_LED_LIGHT (decide (f 1 = 1)) s)))
    else CHECKSUM_ERR s
  else if f 0 = 3 then
    if cRem (wrap16 (wrap16 (f 0 + f 1) + f 2)) 256 = f 3 then
      UART_SendString ("<ACK>").toList
        (UART_SendString ("ACK: Feeding Done\r\n").toList
          (set_LED_FEEDER false (DelayMs 500 (set_LED_FEEDER true s))))
    else CHECKSUM_ERR s
  else if f 0 = 5 then
    if cRem (wrap16 (wrap16 (wrap16 (wrap16 (f 0 + f 1) + f 2) + f 3) + f 4)) 256 = f 5 then
      UART_SendString ("<ACK>").toList
        (UART_SendString ("ACK: Display Schedule Updated\r\n").toList
          (set_LED_DISP (!s.LED_DISP) s))
    else CHECKSUM_ERR s
  else
    UART_SendString ("<ERR>").toList (UART_SendString ("ERR: Unknown Device\r\n").toList s)

/-- Feeding the received bytes `w`, one interrupt each, to `Serial_ISR`. -/
def feed (s : State) (w : List Nat) : State :=
  w.foldl (fun s c => Serial_ISR true c s) s

/-- One step of the running system: a serial interrupt or a pass of the idle loop. -/
inductive Action where
  | isr (RI : Bool) (SBUF : Nat)
  | idle
  deriving DecidableEq

/-- The effect of one action. -/
def step (s : State) : Action → State
  | Action.isr RI SBUF => Serial_ISR RI SBUF s
  | Action.idle => main_loop s

/-- The effect of a sequence of actions. -/
def run (s : State) (acts : List Action) : State := acts.foldl step s

/-- The number of the scan that reads `checksum_received` in the branch of device
`d` (for `d` one of 1, 2, 3, 5): the third scan for the pump, the fourth for the
light and the feeder, the sixth for the display. -/
def checksumIndex (d : Int) : Nat := if d = 1 then 2 else if d = 5 then 5 else 3

/-- The `int` sum of which `Process_Frame` takes `% 256` in the branch of device
`f 0` (one of 1, 2, 3, 5): `deviceCode + stateCode`, `deviceCode + stateCode + val1`
or `deviceCode + stateCode + val1 + val2 + val3`. -/
def field_sum (f : Nat → Int) : Int :=
  if f 0 = 1 then wrap16 (f 0 + f 1)
  else if f 0 = 5 then wrap16 (wrap16 (wrap16 (wrap16 (f 0 + f 1) + f 2) + f 3) + f 4)
  else wrap16 (wrap16 (f 0 + f 1) + f 2)

/-- The local `calculated_sum` of `Process_Frame` in the branch of device `f 0`
(one of 1, 2, 3, 5). -/
def calculated_sum (f : Nat → Int) : Int := cRem (field_sum f) 256

/-- The text that `Process_Frame` transmits when it acknowledges a frame of device
`d` (one of 1, 2, 3, 5): the strings of its `UART_SendString` calls in the branch
of `d`, in order. -/
def ackText (d : Int) : List Char :=
  if d = 1 then ("ACK: Pump Updated\r\n" ++ "<ACK>").toList
  else if d = 2 then ("ACK: Light Set. Brightness: " ++ "UPDATED\r\n" ++ "<ACK>").toList
  else if d = 3 then ("ACK: Feeding Done\r\n" ++ "<ACK>").toList
  else ("ACK: Display Schedule Updated\r\n" ++ "<ACK>").toList

/-- The `int` accumulated by the digit loop from `val` over the digits `ds`. -/
def accumulate (val : Int) (ds : List Nat) : Int :=
  ds.foldl (fun (v : Int) (c : Nat) => wrap16 (v * 10 + ((c : Int) - 48))) val

/-! ## Lemmas on machine integers -/

theorem wrap16_of_range {x : Int} (h1 : -32768 ≤ x) (h2 : x ≤ 32767) : wrap16 x = x := by
  unfold wrap16
  omega

theorem wrap16_natCast {n : Nat} (h : n ≤ 32767) : wrap16 (n : Int) = n :=
  wrap16_of_range (by omega) (by omega)

/-- For a non-negative `int`, C's `% 256` is the value modulo 256. -/
theorem cRem_of_nonneg {x : Int} (h : 0 ≤ x) : cRem x 256 = x % 256 :=
  Int.tmod_eq_emod h (by decide)

/-- Wrapping to 16 bits keeps the value modulo 256. -/
theorem wrap16_mod_256 (x : Int) : wrap16 x % 256 = x % 256 := by
  unfold wrap16
  omega

/-! ## Lemmas on the field scanner -/

theorem skipCommasFrom_eq (mem : List Nat) (s : Nat) :
    skipCommasFrom mem s = s + (mem.takeWhile (fun c => decide (c = 44))).length := by
  induction mem generalizing s with
  | nil => simp [skipCommasFrom]
  | cons c mem ih =>
    by_cases hc : c = 44
    · simp [skipCommasFrom, hc, ih]; omega
    · simp [skipCommasFrom, hc]

theorem readDigitsFrom_eq (mem : List Nat) (val : Int) (s : Nat) :
    readDigitsFrom mem val s
      = (accumulate val (mem.takeWhile isDigit), s + (mem.takeWhile isDigit).length) := by
  induction mem generalizing val s with
  | nil => simp [readDigitsFrom, accumulate]
  | cons c mem ih =>
    by_cases hc : 48 ≤ c ∧ c ≤ 57
    · have hd : isDigit c = true := by simp [isDigit, hc]
      simp only [readDigitsFrom, hc, and_self, if_true, ih, List.takeWhile_cons, hd,
        List.length_cons]
      simp [accumulate]
      omega
    · have hd : isDigit c = false := by simp [isDigit, hc]
      simp [readDigitsFrom, hc, List.takeWhile_cons, hd, accumulate]

theorem drop_skip (buf : List Nat) (pos : Nat) :
    buf.drop (skipCommasFrom (buf.drop pos) pos)
      = (buf.drop pos).dropWhile (fun c => decide (c = 44)) := by
  rw [skipCommasFrom_eq, ← List.drop_drop]
  generalize buf.drop pos = mem
  induction mem with
  | nil => simp
  | cons c mem ih =>
    by_cases hc : c = 44
    · simp [hc, ih]
    · simp [hc]

/-- What `Parse_Int` computes, in closed form. -/
theorem Parse_Int_eq (buf : List Nat) (pos : Nat) :
    Parse_Int buf pos =
      if buf.getD pos 0 = 0 then (-1, pos)
      else (accumulate 0 (fieldDigits buf pos),
            pos + ((buf.drop pos).takeWhile (fun c => decide (c = 44))).length
              + (fieldDigits buf pos).length) := by
  unfold Parse_Int
  split
  · rfl
  · simp only [readDigitsFrom_eq, drop_skip, fieldDigits]
    rw [skipCommasFrom_eq]

theorem decimal_foldl_ge (ds : List Nat) (a : Nat) :
    a ≤ ds.foldl (fun v c => v * 10 + (c - 48)) a := by
  induction ds generalizing a with
  | nil => simp
  | cons c ds ih =>
    simp only [List.foldl_cons]
    exact le_trans (by omega) (ih _)

theorem accumulate_eq_of_fit (ds : List Nat) (a : Nat)
    (hd : ∀ c ∈ ds, isDigit c = true)
    (hfit : ds.foldl (fun v c => v * 10 + (c - 48)) a ≤ 32767) :
    accumulate (a : Int) ds = ((ds.foldl (fun v c => v * 10 + (c - 48)) a : Nat) : Int) := by
  induction ds generalizing a with
  | nil => simp [accumulate]
  | cons c ds ih =>
    have hc : 48 ≤ c ∧ c ≤ 57 := by
      have := hd c (by simp)
      simpa [isDigit] using this
    simp only [List.foldl_cons] at hfit ⊢
    have hstep : a * 10 + (c - 48) ≤ 32767 := le_trans (decimal_foldl_ge ds _) hfit
    have hw : wrap16 ((a : Int) * 10 + ((c : Int) - 48)) = ((a * 10 + (c - 48) : Nat) : Int) := by
      rw [← wrap16_natCast hstep]
      congr 1
      omega
    have := ih (a * 10 + (c - 48)) (fun x hx => hd x (by simp [hx])) hfit
    simp only [accumulate, List.foldl_cons] at this ⊢
    rw [hw]
    exact this

theorem accumulate_zero_of_fit (ds : List Nat) (hd : ∀ c ∈ ds, isDigit c = true)
    (hfit : decimalValue ds ≤ 32767) : accumulate 0 ds = (decimalValue ds : Int) := by
  have := accumulate_eq_of_fit ds 0 hd hfit
  simpa [decimalValue] using this

theorem fieldDigits_isDigit (buf : List Nat) (pos : Nat) :
    ∀ c ∈ fieldDigits buf pos, isDigit c = true := by
  intro c hc
  exact List.mem_takeWhile_imp hc

theorem takeWhile_commas (k : Nat) (m : List Nat) (h : m.head? ≠ some 44) :
    (List.replicate k 44 ++ m).takeWhile (fun c => decide (c = 44)) = List.replicate k 44 := by
  rw [List.takeWhile_append_of_pos (by simp)]
  cases m with
  | nil => simp
  | cons c m =>
    have hc : c ≠ 44 := by simpa using h
    simp [hc]

theorem dropWhile_commas (k : Nat) (m : List Nat) (h : m.head? ≠ some 44) :
    (List.replicate k 44 ++ m).dropWhile (fun c => decide (c = 44)) = m := by
  rw [List.dropWhile_append_of_pos (by simp)]
  cases m with
  | nil => simp
  | cons c m =>
    have hc : c ≠ 44 := by simpa using h
    simp [hc]

theorem takeWhile_digits (ds rest : List Nat) (hd : ∀ c ∈ ds, isDigit c = true)
    (hrest : ∀ c, rest.head? = some c → isDigit c = false) :
    (ds ++ rest).takeWhile isDigit = ds := by
  rw [List.takeWhile_append_of_pos hd]
  cases rest with
  | nil => simp
  | cons c rest =>
    have hc : isDigit c = false := hrest c (by simp)
    simp [hc]

theorem getD_append_at (pre m : List Nat) :
    (pre ++ m).getD pre.length 0 = m.headD 0 := by
  rw [List.getD_eq_getElem?_getD, List.getElem?_append_right (le_refl _)]
  cases m with
  | nil => simp
  | cons c m => simp

/-- The scanner on a text of `k` commas followed by `m`, where `m` does not start
with a comma. -/
theorem Parse_Int_commas (pre m : List Nat) (k : Nat) (hm : m.head? ≠ some 44)
    (hnz : (List.replicate k 44 ++ m).headD 0 ≠ 0) :
    Parse_Int (pre ++ (List.replicate k 44 ++ m)) pre.length
      = (accumulate 0 (m.takeWhile isDigit), pre.length + k + (m.takeWhile isDigit).length) := by
  rw [Parse_Int_eq, getD_append_at, if_neg hnz]
  simp only [fieldDigits, List.drop_left, takeWhile_commas k m hm, dropWhile_commas k m hm,
    List.length_replicate]

/-- Once a scan has returned `r` without moving the cursor, every later scan
returns `r` again. -/
theorem scanFrom_fixed (buf : List Nat) (pos : Nat) (v : Int)
    (h : Parse_Int buf pos = (v, pos)) : ∀ n, scanFrom buf pos n = (v, pos) := by
  intro n
  induction n with
  | zero => exact h
  | succ n ih => simp [scanFrom, ih, h]

/-! ## Field scanner: claims C8, C9, C10 -/

/-- C8. On a text of `k` commas, then a non-empty run `ds` of ASCII digits whose
base-10 value fits the `int` range, then a non-digit byte or the end of the text,
`Parse_Int` returns that value and advances the cursor by `k + |ds|`. -/
theorem Parse_Int_value (pre ds rest : List Nat) (k : Nat) (hne : ds ≠ [])
    (hd : ∀ c ∈ ds, isDigit c = true) (hfit : decimalValue ds ≤ 32767)
    (hrest : ∀ c, rest.head? = some c → isDigit c = false) :
    Parse_Int (pre ++ List.replicate k 44 ++ ds ++ rest) pre.length
      = ((decimalValue ds : Int), pre.length + k + ds.length) := by
  obtain ⟨d, ds', rfl⟩ := List.exists_cons_of_ne_nil hne
  have hdig : 48 ≤ d ∧ d ≤ 57 := by
    have := hd d (by simp)
    simpa [isDigit] using this
  have hm : ((d :: ds') ++ rest).head? ≠ some 44 := by
    simp only [List.cons_append, List.head?_cons, ne_eq, Option.some.injEq]
    omega
  have hnz : (List.replicate k 44 ++ ((d :: ds') ++ rest)).headD 0 ≠ 0 := by
    cases k with
    | zero => simp only [List.replicate_zero, List.nil_append, List.cons_append,
                List.headD_cons]; omega
    | succ k => simp [List.replicate_succ]
  have h := Parse_Int_commas pre ((d :: ds') ++ rest) k hm hnz
  rw [takeWhile_digits (d :: ds') rest hd hrest, accumulate_zero_of_fit _ hd hfit] at h
  rw [← h]
  simp [List.append_assoc]

/-- The text `,,042;` scanned from its start gives 42 and stops at the `;`. -/
theorem Parse_Int_value_witness :
    Parse_Int ([] ++ List.replicate 2 44 ++ [48, 52, 50] ++ [59]) ([] : List Nat).length
      = ((decimalValue [48, 52, 50] : Int), ([] : List Nat).length + 2 + [48, 52, 50].length) :=
  Parse_Int_value [] [48, 52, 50] [59] 2 (by decide) (by decide) (by decide) (by decide)

/-- C9. When the digit text of the field does not overflow, `Parse_Int` returns -1
exactly when the byte at the cursor is the terminator; in that case the cursor is
unchanged and every later scan returns -1 with the same cursor. -/
theorem Parse_Int_notFound_iff (buf : List Nat) (pos : Nat)
    (hfit : decimalValue (fieldDigits buf pos) ≤ 32767) :
    ((Parse_Int buf pos).1 = -1 ↔ buf.getD pos 0 = 0) ∧
    (buf.getD pos 0 = 0 →
      Parse_Int buf pos = (-1, pos) ∧ ∀ n, scanFrom buf pos n = (-1, pos)) := by
  have h0 : buf.getD pos 0 = 0 → Parse_Int buf pos = (-1, pos) := by
    intro h
    rw [Parse_Int_eq, if_pos h]
  refine ⟨⟨?_, fun h => by rw [h0 h]⟩, fun h => ⟨h0 h, scanFrom_fixed buf pos (-1) (h0 h)⟩⟩
  intro h
  by_contra hnz
  rw [Parse_Int_eq, if_neg hnz, accumulate_zero_of_fit _ (fieldDigits_isDigit buf pos) hfit] at h
  simp only at h
  omega

/-- The frame `7` scanned at its end (the terminator) and at its start. -/
theorem Parse_Int_notFound_iff_witness :
    ((Parse_Int (frameBuf [55]) 1).1 = -1 ↔ (frameBuf [55]).getD 1 0 = 0) ∧
    ((frameBuf [55]).getD 1 0 = 0 →
      Parse_Int (frameBuf [55]) 1 = (-1, 1) ∧ ∀ n, scanFrom (frameBuf [55]) 1 n = (-1, 1)) :=
  Parse_Int_notFound_iff (frameBuf [55]) 1 (by decide)

/-- C10. When the byte at the cursor is not the terminator and the `k` commas at
the cursor are followed by a byte that is not a digit (or by the end of the text),
`Parse_Int` returns 0 and advances the cursor by `k`; with `k = 0` the cursor does
not move and every later scan returns 0 again. -/
theorem Parse_Int_zero_digits (pre rest : List Nat) (k : Nat)
    (hnz : (pre ++ List.replicate k 44 ++ rest).getD pre.length 0 ≠ 0)
    (hcomma : rest.head? ≠ some 44)
    (hrest : ∀ c, rest.head? = some c → isDigit c = false) :
    Parse_Int (pre ++ List.replicate k 44 ++ rest) pre.length = (0, pre.length + k) ∧
    (k = 0 → ∀ n, scanFrom (pre ++ List.replicate k 44 ++ rest) pre.length n
      = (0, pre.length)) := by
  have hp : Parse_Int (pre ++ List.replicate k 44 ++ rest) pre.length = (0, pre.length + k) := by
    rw [List.append_assoc] at hnz ⊢
    rw [getD_append_at] at hnz
    rw [Parse_Int_commas pre rest k hcomma hnz]
    have := takeWhile_digits [] rest (by simp) hrest
    simp only [List.nil_append] at this
    simp [this, accumulate]
  refine ⟨hp, ?_⟩
  intro hk
  subst hk
  exact scanFrom_fixed _ _ 0 (by simpa using hp)

/-- The text `,,x` gives 0 with the cursor on `x`; scanning at `x` gives 0 forever. -/
theorem Parse_Int_zero_digits_witness :
    (Parse_Int ([] ++ List.replicate 2 44 ++ [120]) ([] : List Nat).length
        = (0, ([] : List Nat).length + 2) ∧
      (2 = 0 → ∀ n, scanFrom ([] ++ List.replicate 2 44 ++ [120]) ([] : List Nat).length n
        = (0, ([] : List Nat).length))) ∧
    (Parse_Int ([44, 44] ++ List.replicate 0 44 ++ [120]) [44, 44].length
        = (0, [44, 44].length + 0) ∧
      (0 = 0 → ∀ n, scanFrom ([44, 44] ++ List.replicate 0 44 ++ [120]) [44, 44].length n
        = (0, [44, 44].length))) :=
  ⟨Parse_Int_zero_digits [] [120] 2 (by decide) (by decide) (by decide),
   Parse_Int_zero_digits [44, 44] [120] 0 (by decide) (by decide) (by decide)⟩

/-! ## Lemmas on the command processor -/

theorem Process_Frame_eq (s : State) :
    Process_Frame s = Process_Frame_on (field s.rx_buffer) s := rfl

theorem uartOut_append (a b : List Effect) : uartOut (a ++ b) = uartOut a ++ uartOut b := by
  induction a with
  | nil => rfl
  | cons e a ih => cases e <;> simp [uartOut, ih]

theorem uartOut_tx (l : List Char) : uartOut (l.map Effect.tx) = l := by
  induction l with
  | nil => rfl
  | cons c l ih => simp [uartOut, ih]

theorem UART_SendString_eq (str : List Char) (s : State) (h : ∀ c ∈ str, c ≠ Char.ofNat 0) :
    UART_SendString str s = { s with trace := s.trace ++ str.map Effect.tx } := by
  induction str generalizing s with
  | nil => simp [UART_SendString]
  | cons c str ih =>
    have hc : c ≠ Char.ofNat 0 := h c (by simp)
    rw [UART_SendString, if_neg hc, ih _ (fun x hx => h x (by simp [hx]))]
    simp [UART_TxChar]

theorem CHECKSUM_ERR_eq (s : State) :
    CHECKSUM_ERR s
      = { s with trace := s.trace ++ ("ERR: Checksum Fail\r\n<ERR>").toList.map Effect.tx } := by
  unfold CHECKSUM_ERR
  rw [UART_SendString_eq _ _ (by decide), UART_SendString_eq _ _ (by decide)]
  simp

theorem unknown_device_eq (s : State) :
    UART_SendString ("<ERR>").toList (UART_SendString ("ERR: Unknown Device\r\n").toList s)
      = { s with trace := s.trace ++ ("ERR: Unknown Device\r\n<ERR>").toList.map Effect.tx } := by
  rw [UART_SendString_eq _ _ (by decide), UART_SendString_eq _ _ (by decide)]
  simp

theorem ack_pump_eq (b : Bool) (s : State) :
    UART_SendString ("<ACK>").toList
        (UART_SendString ("ACK: Pump Updated\r\n").toList (set_LED_PUMP b s))
      = { s with
          LED_PUMP := b
          trace := s.trace ++ Effect.pin Pin.PUMP b
            :: ("ACK: Pump Updated\r\n<ACK>").toList.map Effect.tx } := by
  rw [UART_SendString_eq _ _ (by decide), UART_SendString_eq _ _ (by decide)]
  simp [set_LED_PUMP]

theorem ack_light_eq (b : Bool) (s : State) :
    UART_SendString ("<ACK>").toList
        (UART_SendString ("UPDATED\r\n").toList
          (UART_SendString ("ACK: Light Set. Brightness: ").toList (set_LED_LIGHT b s)))
      = { s with
          LED_LIGHT := b
          trace := s.trace ++ Effect.pin Pin.LIGHT b
            :: ("ACK: Light Set. Brightness: UPDATED\r\n<ACK>").toList.map Effect.tx } := by
  rw [UART_SendString_eq _ _ (by decide), UART_SendString_eq _ _ (by decide),
    UART_SendString_eq _ _ (by decide)]
  simp [set_LED_LIGHT]

theorem ack_feeder_eq (s : State) :
    UART_SendString ("<ACK>").toList
        (UART_SendString ("ACK: Feeding Done\r\n").toList
          (set_LED_FEEDER false (DelayMs 500 (set_LED_FEEDER true s))))
      = { s with
          LED_FEEDER := false
          trace := s.trace ++ Effect.pin Pin.FEEDER true :: Effect.delay 500
            :: Effect.pin Pin.FEEDER false
            :: ("ACK: Feeding Done\r\n<ACK>").toList.map Effect.tx } := by
  rw [UART_SendString_eq _ _ (by decide), UART_SendString_eq _ _ (by decide)]
  simp [set_LED_FEEDER, DelayMs]

theorem ack_disp_eq (b : Bool) (s : State) :
    UART_SendString ("<ACK>").toList
        (UART_SendString ("ACK: Display Schedule Updated\r\n").toList (set_LED_DISP b s))
      = { s with
          LED_DISP := b
          trace := s.trace ++ Effect.pin Pin.DISP b
            :: ("ACK: Display Schedule Updated\r\n<ACK>").toList.map Effect.tx } := by
  rw [UART_SendString_eq _ _ (by decide), UART_SendString_eq _ _ (by decide)]
  simp [set_LED_DISP]

theorem uartOut_pin_tx (tr : List Effect) (p : Pin) (b : Bool) (l : List Char) :
    uartOut (tr ++ Effect.pin p b :: l.map Effect.tx) = uartOut tr ++ l := by
  rw [uartOut_append]
  simp [uartOut, uartOut_tx]

/-- The last branch of `Process_Frame`. -/
theorem Process_Frame_other (s : State)
    (hfound : field s.rx_buffer 0 ≠ -1)
    (h1 : field s.rx_buffer 0 ≠ 1) (h2 : field s.rx_buffer 0 ≠ 2)
    (h3 : field s.rx_buffer 0 ≠ 3) (h5 : field s.rx_buffer 0 ≠ 5) :
    Process_Frame s
      = { s with
          trace := s.trace ++ ("ERR: Unknown Device\r\n<ERR>").toList.map Effect.tx } := by
  rw [Process_Frame_eq]
  simp only [Process_Frame_on, if_neg hfound, if_neg h1, if_neg h2, if_neg h3, if_neg h5]
  rw [unknown_device_eq]

/-! ## Command processor: claims C1 to C4 -/

/-- C1 (as amended). For every buffer whose scanned device code is 1, 2, 3 or 5 and
whose scanned checksum field equals the checksum the code calculates, namely the
16-bit `int` sum of device, state and the payload fields of that device reduced by
C's `% 256`, `Process_Frame` transmits exactly the acknowledgement text of that
device and nothing else. -/
theorem Process_Frame_ack (s : State) :
    (field s.rx_buffer 0 = 1 →
      field s.rx_buffer 2
        = cRem (wrap16 (field s.rx_buffer 0 + field s.rx_buffer 1)) 256 →
      uartOut (Process_Frame s).trace
        = uartOut s.trace ++ ("ACK: Pump Updated\r\n<ACK>").toList) ∧
    (field s.rx_buffer 0 = 2 →
      field s.rx_buffer 3
        = cRem (wrap16 (wrap16 (field s.rx_buffer 0 + field s.rx_buffer 1)
            + field s.rx_buffer 2)) 256 →
      uartOut (Process_Frame s).trace
        = uartOut s.trace ++ ("ACK: Light Set. Brightness: UPDATED\r\n<ACK>").toList) ∧
    (field s.rx_buffer 0 = 3 →
      field s.rx_buffer 3
        = cRem (wrap16 (wrap16 (field s.rx_buffer 0 + field s.rx_buffer 1)
            + field s.rx_buffer 2)) 256 →
      uartOut (Process_Frame s).trace
        = uartOut s.trace ++ ("ACK: Feeding Done\r\n<ACK>").toList) ∧
    (field s.rx_buffer 0 = 5 →
      field s.rx_buffer 5
        = cRem (wrap16 (wrap16 (wrap16 (wrap16 (field s.rx_buffer 0 + field s.rx_buffer 1)
            + field s.rx_buffer 2) + field s.rx_buffer 3) + field s.rx_buffer 4)) 256 →
      uartOut (Process_Frame s).trace
        = uartOut s.trace ++ ("ACK: Display Schedule Updated\r\n<ACK>").toList) := by
  rw [Process_Frame_eq]
  refine ⟨fun h0 hc => ?_, fun h0 hc => ?_, fun h0 hc => ?_, fun h0 hc => ?_⟩
  · rw [h0] at hc
    simp only [Process_Frame_on, h0, ← hc, if_true]
    rw [if_neg (by decide), ack_pump_eq, uartOut_pin_tx]
  · rw [h0] at hc
    simp only [Process_Frame_on, h0, ← hc, if_true]
    rw [if_neg (by decide), if_neg (by decide), ack_light_eq, uartOut_pin_tx]
  · rw [h0] at hc
    simp only [Process_Frame_on, h0, ← hc, if_true]
    rw [if_neg (by decide), if_neg (by decide), if_neg (by decide), ack_feeder_eq]
    simp [uartOut_append, uartOut, uartOut_tx]
  · rw [h0] at hc
    simp only [Process_Frame_on, h0, ← hc, if_true]
    rw [if_neg (by decide), if_neg (by decide), if_neg (by decide), if_neg (by decide),
      ack_disp_eq, uartOut_pin_tx]

/-- The acknowledgements of the frames `01,01,02`, `02,01,50,53`, `03,01,10,14`,
`05,01,8,30,5,49` and `2,1,253,0`. -/
theorem Process_Frame_ack_witness :
    uartOut (Process_Frame (frameState (bytes ("01,01,02")))).trace
      = uartOut (frameState (bytes ("01,01,02"))).trace
        ++ ("ACK: Pump Updated\r\n<ACK>").toList ∧
    uartOut (Process_Frame (frameState (bytes ("02,01,50,53")))).trace
      = uartOut (frameState (bytes ("02,01,50,53"))).trace
        ++ ("ACK: Light Set. Brightness: UPDATED\r\n<ACK>").toList ∧
    uartOut (Process_Frame (frameState (bytes ("03,01,10,14")))).trace
      = uartOut (frameState (bytes ("03,01,10,14"))).trace
        ++ ("ACK: Feeding Done\r\n<ACK>").toList ∧
    uartOut (Process_Frame (frameState (bytes ("05,01,8,30,5,49")))).trace
      = uartOut (frameState (bytes ("05,01,8,30,5,49"))).trace
        ++ ("ACK: Display Schedule Updated\r\n<ACK>").toList ∧
    uartOut (Process_Frame (frameState (bytes ("2,1,253,0")))).trace
      = uartOut (frameState (bytes ("2,1,253,0"))).trace
        ++ ("ACK: Light Set. Brightness: UPDATED\r\n<ACK>").toList :=
  ⟨(Process_Frame_ack (frameState (bytes ("01,01,02")))).1 (by decide) (by decide),
   (Process_Frame_ack (frameState (bytes ("02,01,50,53")))).2.1 (by decide) (by decide),
   (Process_Frame_ack (frameState (bytes ("03,01,10,14")))).2.2.1 (by decide) (by decide),
   (Process_Frame_ack (frameState (bytes ("05,01,8,30,5,49")))).2.2.2 (by decide) (by decide),
   (Process_Frame_ack (frameState (bytes ("2,1,253,0")))).2.1 (by decide) (by decide)⟩

/-- C1 (as stated) fails on the frame `1,32768,1`: the device code scans as 1, the
state text wraps to -32768, and the checksum field 1 equals (1 + -32768) mod 256,
yet the code calculates -255 and answers with the checksum error, not with the
pump acknowledgement. -/
theorem Process_Frame_ack_mod_counterexample :
    field (frameState (bytes ("1,32768,1"))).rx_buffer 0 = 1 ∧
    field (frameState (bytes ("1,32768,1"))).rx_buffer 1 = -32768 ∧
    field (frameState (bytes ("1,32768,1"))).rx_buffer 2
      = specChecksum [field (frameState (bytes ("1,32768,1"))).rx_buffer 0,
          field (frameState (bytes ("1,32768,1"))).rx_buffer 1] ∧
    uartOut (Process_Frame (frameState (bytes ("1,32768,1")))).trace
      = ("ERR: Checksum Fail\r\n<ERR>").toList ∧
    uartOut (Process_Frame (frameState (bytes ("1,32768,1")))).trace
      ≠ uartOut (frameState (bytes ("1,32768,1"))).trace
        ++ ("ACK: Pump Updated\r\n<ACK>").toList := by
  decide

/-- C2 (as amended). For every buffer whose scanned device code is 1, 2, 3 or 5 and
whose scanned checksum field differs from the checksum the code calculates (the
16-bit `int` sum of device, state and payload fields reduced by C's `% 256`),
the only effects of `Process_Frame` are the characters of the checksum error
reply, and the four outputs keep their levels. -/
theorem Process_Frame_checksum_fail (s : State) :
    (field s.rx_buffer 0 = 1 →
      cRem (wrap16 (field s.rx_buffer 0 + field s.rx_buffer 1)) 256
        ≠ field s.rx_buffer 2 →
      (Process_Frame s).trace
          = s.trace ++ (("ERR: Checksum Fail\r\n<ERR>").toList.map Effect.tx) ∧
        (Process_Frame s).leds = s.leds) ∧
    (field s.rx_buffer 0 = 2 ∨ field s.rx_buffer 0 = 3 →
      cRem (wrap16 (wrap16 (field s.rx_buffer 0 + field s.rx_buffer 1)
          + field s.rx_buffer 2)) 256 ≠ field s.rx_buffer 3 →
      (Process_Frame s).trace
          = s.trace ++ (("ERR: Checksum Fail\r\n<ERR>").toList.map Effect.tx) ∧
        (Process_Frame s).leds = s.leds) ∧
    (field s.rx_buffer 0 = 5 →
      cRem (wrap16 (wrap16 (wrap16 (wrap16 (field s.rx_buffer 0 + field s.rx_buffer 1)
          + field s.rx_buffer 2) + field s.rx_buffer 3) + field s.rx_buffer 4)) 256
        ≠ field s.rx_buffer 5 →
      (Process_Frame s).trace
          = s.trace ++ (("ERR: Checksum Fail\r\n<ERR>").toList.map Effect.tx) ∧
        (Process_Frame s).leds = s.leds) := by
  rw [Process_Frame_eq]
  refine ⟨fun h0 hc => ?_, fun h0 hc => ?_, fun h0 hc => ?_⟩
  · rw [h0] at hc
    simp only [Process_Frame_on, h0, if_true, if_neg hc]
    rw [if_neg (by decide), CHECKSUM_ERR_eq]
    exact ⟨rfl, rfl⟩
  · rcases h0 with h0 | h0
    · rw [h0] at hc
      simp only [Process_Frame_on, h0, if_true, if_neg hc]
      rw [if_neg (by decide), if_neg (by decide), CHECKSUM_ERR_eq]
      exact ⟨rfl, rfl⟩
    · rw [h0] at hc
      simp only [Process_Frame_on, h0, if_true, if_neg hc]
      rw [if_neg (by decide), if_neg (by decide), if_neg (by decide), CHECKSUM_ERR_eq]
      exact ⟨rfl, rfl⟩
  · rw [h0] at hc
    simp only [Process_Frame_on, h0, if_true, if_neg hc]
    rw [if_neg (by decide), if_neg (by decide), if_neg (by decide), if_neg (by decide),
      CHECKSUM_ERR_eq]
    exact ⟨rfl, rfl⟩

/-- The frames `01,01,99` and `01,01,258` are rejected: 258 is congruent to the
calculated 2 modulo 256 but is compared as it is. -/
theorem Process_Frame_checksum_fail_witness :
    ((Process_Frame (frameState (bytes ("01,01,99")))).trace
        = (frameState (bytes ("01,01,99"))).trace
          ++ (("ERR: Checksum Fail\r\n<ERR>").toList.map Effect.tx) ∧
      (Process_Frame (frameState (bytes ("01,01,99")))).leds
        = (frameState (bytes ("01,01,99"))).leds) ∧
    ((Process_Frame (frameState (bytes ("01,01,258")))).trace
        = (frameState (bytes ("01,01,258"))).trace
          ++ (("ERR: Checksum Fail\r\n<ERR>").toList.map Effect.tx) ∧
      (Process_Frame (frameState (bytes ("01,01,258")))).leds
        = (frameState (bytes ("01,01,258"))).leds) :=
  ⟨(Process_Frame_checksum_fail (frameState (bytes ("01,01,99")))).1 (by decide) (by decide),
   (Process_Frame_checksum_fail (frameState (bytes ("01,01,258")))).1 (by decide) (by decide)⟩

/-- C2 (as stated) fails on the frame `5,32768,0,0,0,65285`: the sum of device,
state and payload fields is -32763, which is 5 modulo 256, and the checksum field
scans as -251, so the two differ; yet the code calculates -251, acknowledges the
frame and toggles the display output. -/
theorem Process_Frame_checksum_fail_mod_counterexample :
    field (frameState (bytes ("5,32768,0,0,0,65285"))).rx_buffer 0 = 5 ∧
    specChecksum [field (frameState (bytes ("5,32768,0,0,0,65285"))).rx_buffer 0,
        field (frameState (bytes ("5,32768,0,0,0,65285"))).rx_buffer 1,
        field (frameState (bytes ("5,32768,0,0,0,65285"))).rx_buffer 2,
        field (frameState (bytes ("5,32768,0,0,0,65285"))).rx_buffer 3,
        field (frameState (bytes ("5,32768,0,0,0,65285"))).rx_buffer 4] = 5 ∧
    field (frameState (bytes ("5,32768,0,0,0,65285"))).rx_buffer 5 = -251 ∧
    uartOut (Process_Frame (frameState (bytes ("5,32768,0,0,0,65285")))).trace
      = ("ACK: Display Schedule Updated\r\n<ACK>").toList ∧
    (Process_Frame (frameState (bytes ("5,32768,0,0,0,65285")))).LED_DISP
      ≠ (frameState (bytes ("5,32768,0,0,0,65285"))).LED_DISP := by
  decide

/-- C3 (as amended). For every buffer whose scanned device code is none of 1, 2,
3, 5 and is not -1, the only effects of `Process_Frame` are the characters of the
unknown-device reply, whatever follows the device code, and the four outputs keep
their levels. -/
theorem Process_Frame_unknown_device (s : State)
    (hfound : field s.rx_buffer 0 ≠ -1)
    (h1 : field s.rx_buffer 0 ≠ 1) (h2 : field s.rx_buffer 0 ≠ 2)
    (h3 : field s.rx_buffer 0 ≠ 3) (h5 : field s.rx_buffer 0 ≠ 5) :
    (Process_Frame s).trace
        = s.trace ++ (("ERR: Unknown Device\r\n<ERR>").toList.map Effect.tx) ∧
      (Process_Frame s).leds = s.leds := by
  rw [Process_Frame_other s hfound h1 h2 h3 h5]
  exact ⟨rfl, rfl⟩

/-- The frame `04,01,00` is answered with the unknown-device reply. -/
theorem Process_Frame_unknown_device_witness :
    (Process_Frame (frameState (bytes ("04,01,00")))).trace
        = (frameState (bytes ("04,01,00"))).trace
          ++ (("ERR: Unknown Device\r\n<ERR>").toList.map Effect.tx) ∧
      (Process_Frame (frameState (bytes ("04,01,00")))).leds
        = (frameState (bytes ("04,01,00"))).leds :=
  Process_Frame_unknown_device (frameState (bytes ("04,01,00")))
    (by decide) (by decide) (by decide) (by decide) (by decide)

/-- C3 (as stated) fails on the frame `65535`: a device code is found (the first
byte is the digit 6, not the terminator), the digit text wraps to -1, a value
outside 1, 2, 3, 5, and `Process_Frame` transmits nothing. -/
theorem Process_Frame_unknown_device_counterexample :
    (frameState (bytes ("65535"))).rx_buffer.getD 0 0 ≠ 0 ∧
    field (frameState (bytes ("65535"))).rx_buffer 0 = -1 ∧
    Process_Frame (frameState (bytes ("65535"))) = frameState (bytes ("65535")) ∧
    uartOut (Process_Frame (frameState (bytes ("65535")))).trace
      ≠ uartOut (frameState (bytes ("65535"))).trace
        ++ ("ERR: Unknown Device\r\n<ERR>").toList := by
  decide

/-- C4 (as amended). A frame whose payload is empty (the first byte of the buffer is
the terminator) leaves the whole state unchanged: nothing is transmitted and no
output is written. A payload of one or more commas and nothing else is scanned
as device code 0 and is answered with the unknown-device reply, the four outputs
keeping their levels. -/
theorem Process_Frame_no_device (s : State) :
    (s.rx_buffer.getD 0 0 = 0 → Process_Frame s = s) ∧
    (∀ (k : Nat) (rest : List Nat), 0 < k →
      s.rx_buffer = List.replicate k 44 ++ 0 :: rest →
      (Process_Frame s).trace
          = s.trace ++ (("ERR: Unknown Device\r\n<ERR>").toList.map Effect.tx) ∧
        (Process_Frame s).leds = s.leds) := by
  constructor
  · intro h
    have h0 : field s.rx_buffer 0 = -1 := by
      simp only [field, scanFrom]
      rw [Parse_Int_eq, if_pos h]
    rw [Process_Frame_eq]
    simp [Process_Frame_on, h0]
  · intro k rest hk hbuf
    have hp : Parse_Int s.rx_buffer 0 = (0, k) := by
      have hnz : (List.replicate k 44 ++ 0 :: rest).headD 0 ≠ 0 := by
        cases k with
        | zero => omega
        | succ k => simp [List.replicate_succ]
      have := Parse_Int_commas [] (0 :: rest) k (by simp) hnz
      rw [hbuf]
      simpa [isDigit, accumulate] using this
    have h0 : field s.rx_buffer 0 = 0 := by simp [field, scanFrom, hp]
    rw [Process_Frame_other s (by omega) (by omega) (by omega) (by omega) (by omega)]
    exact ⟨rfl, rfl⟩

/-- The empty frame is dropped silently; the frame `,` is not. -/
theorem Process_Frame_no_device_witness :
    Process_Frame (frameState []) = frameState [] ∧
    ((Process_Frame (frameState (bytes (",")))).trace
        = (frameState (bytes (","))).trace
          ++ (("ERR: Unknown Device\r\n<ERR>").toList.map Effect.tx) ∧
      (Process_Frame (frameState (bytes (",")))).leds = (frameState (bytes (","))).leds) :=
  ⟨(Process_Frame_no_device (frameState [])).1 (by decide),
   (Process_Frame_no_device (frameState (bytes (",")))).2 1 (List.replicate 38 0)
     (by decide) (by decide)⟩

/-- C4 (as stated) fails on the frame `,,,`: the payload consists of field
separators only, and `Process_Frame` transmits the unknown-device reply. -/
theorem Process_Frame_no_device_counterexample :
    uartOut (Process_Frame (frameState (bytes (",,,")))).trace
      = ("ERR: Unknown Device\r\n<ERR>").toList ∧
    uartOut (Process_Frame (frameState (bytes (",,,")))).trace
      ≠ uartOut (frameState (bytes (",,,"))).trace := by
  decide

/-! ## Lemmas on the frame accumulator -/

theorem UART_SendString_rx_buffer (str : List Char) (s : State) :
    (UART_SendString str s).rx_buffer = s.rx_buffer := by
  induction str generalizing s with
  | nil => rfl
  | cons c str ih =>
    rw [UART_SendString]
    split_ifs
    · rfl
    · rw [ih]; rfl

theorem UART_SendString_rx_index (str : List Char) (s : State) :
    (UART_SendString str s).rx_index = s.rx_index := by
  induction str generalizing s with
  | nil => rfl
  | cons c str ih =>
    rw [UART_SendString]
    split_ifs
    · rfl
    · rw [ih]; rfl

theorem UART_SendString_frame_received (str : List Char) (s : State) :
    (UART_SendString str s).frame_received = s.frame_received := by
  induction str generalizing s with
  | nil => rfl
  | cons c str ih =>
    rw [UART_SendString]
    split_ifs
    · rfl
    · rw [ih]; rfl

theorem Process_Frame_globals (s : State) :
    (Process_Frame s).rx_buffer = s.rx_buffer ∧ (Process_Frame s).rx_index = s.rx_index ∧
      (Process_Frame s).frame_received = s.frame_received := by
  rw [Process_Frame_eq]
  unfold Process_Frame_on
  split_ifs <;>
    simp only [CHECKSUM_ERR, UART_SendString_rx_buffer, UART_SendString_rx_index,
      UART_SendString_frame_received, set_LED_PUMP, set_LED_LIGHT, set_LED_FEEDER,
      set_LED_DISP, DelayMs, and_self]

theorem feed_cons (s : State) (c : Nat) (w : List Nat) :
    feed s (c :: w) = feed (Serial_ISR true c s) w := rfl

theorem feed_append (s : State) (w v : List Nat) : feed s (w ++ v) = feed (feed s w) v := by
  simp [feed, List.foldl_append]

/-- Feeding data bytes appends them after the bytes already stored, up to 39 bytes
in all, and changes nothing but the buffer and the cursor. -/
theorem feed_data (w : List Nat) (hw : ∀ c ∈ w, c ≠ 60 ∧ c ≠ 62) :
    ∀ (s : State) (a b : List Nat), s.rx_buffer = a ++ b → s.rx_index = a.length →
      a.length ≤ 39 → (a ++ b).length = 40 →
      ∃ b', feed s w = { s with rx_buffer := a ++ w.take (39 - a.length) ++ b'
                                rx_index := min (a.length + w.length) 39 } ∧
        (a ++ w.take (39 - a.length) ++ b').length = 40 := by
  induction w with
  | nil =>
    intro s a b hbuf hidx ha hlen
    refine ⟨b, ?_, by simpa using hlen⟩
    simp [feed, ← hbuf, ← hidx, Nat.min_eq_left (hidx ▸ ha)]
  | cons c w ih =>
    intro s a b hbuf hidx ha hlen
    have hc := hw c (by simp)
    have hw' : ∀ x ∈ w, x ≠ 60 ∧ x ≠ 62 := fun x hx => hw x (by simp [hx])
    rw [feed_cons]
    by_cases hlt : a.length < 39
    · cases b with
      | nil => simp at hlen; omega
      | cons x b =>
        have hs : Serial_ISR true c s
            = { s with rx_buffer := (a ++ [c]) ++ b, rx_index := (a ++ [c]).length } := by
          have h256 : (a.length + 1) % 256 = a.length + 1 := Nat.mod_eq_of_lt (by omega)
          simp [Serial_ISR, hc.1, hc.2, hidx, hlt, hbuf, h256]
        have hlen' : ((a ++ [c]) ++ b).length = 40 := by
          simp only [List.length_append, List.length_cons, List.length_nil] at hlen ⊢
          omega
        obtain ⟨b', h1, h2⟩ := ih hw' (Serial_ISR true c s) (a ++ [c]) b
          (by rw [hs]) (by rw [hs]) (by simp; omega) hlen'
        have ht : (c :: w).take (39 - a.length) = c :: w.take (39 - (a ++ [c]).length) := by
          have : 39 - a.length = (39 - (a ++ [c]).length) + 1 := by simp; omega
          rw [this, List.take_succ_cons]
        refine ⟨b', ?_, ?_⟩
        · rw [h1, hs, ht]
          simp only [List.append_assoc, List.singleton_append, List.length_append,
            List.length_cons, List.length_nil]
          congr 2
          omega
        · rw [ht]
          simpa [List.append_assoc] using h2
    · have h39 : a.length = 39 := by omega
      have hs : Serial_ISR true c s = s := by
        simp [Serial_ISR, hc.1, hc.2, hidx, h39]
      obtain ⟨b', h1, h2⟩ := ih hw' s a b hbuf hidx ha hlen
      rw [hs]
      refine ⟨b', ?_, ?_⟩
      · rw [h1]
        simp [h39]
      · simpa [h39] using h2

/-- The state after a whole frame `<`, `w`, `>` has been received. -/
theorem feed_frame (s : State) (w : List Nat) (hlen : s.rx_buffer.length = 40)
    (hw : ∀ c ∈ w, c ≠ 60 ∧ c ≠ 62) :
    ∃ tail, feed s (60 :: w ++ [62])
        = { s with rx_buffer := w.take 39 ++ 0 :: tail
                   rx_index := min w.length 39
                   frame_received := true } ∧
      (w.take 39 ++ 0 :: tail).length = 40 := by
  have h60 : Serial_ISR true 60 s = { s with rx_index := 0 } := by simp [Serial_ISR]
  obtain ⟨b', h1, h2⟩ := feed_data w hw (Serial_ISR true 60 s) [] s.rx_buffer
    (by rw [h60]; simp) (by rw [h60]; simp) (by simp) (by simpa using hlen)
  simp only [List.nil_append, List.length_nil, Nat.sub_zero, Nat.zero_add] at h1 h2
  have hm : (w.take 39).length = min w.length 39 := by simp [Nat.min_comm]
  cases b' with
  | nil =>
    simp only [List.append_nil] at h2
    have : (w.take 39).length ≤ 39 := by simp
    omega
  | cons x tail =>
    refine ⟨tail, ?_, by simpa using h2⟩
    rw [List.cons_append, feed_cons, feed_append, h1, h60]
    simp only [feed, List.foldl_cons, List.foldl_nil, Serial_ISR]
    simp [← hm]

/-- The interrupt and the idle loop keep the cursor within 0..39 and the buffer at
40 bytes. -/
theorem step_inv (s : State) (a : Action) (h : s.rx_index ≤ 39 ∧ s.rx_buffer.length = 40) :
    (step s a).rx_index ≤ 39 ∧ (step s a).rx_buffer.length = 40 := by
  obtain ⟨hi, hl⟩ := h
  cases a with
  | isr RI SBUF =>
    simp only [step, Serial_ISR]
    split_ifs <;> simp [hl, hi]
    omega
  | idle =>
    simp only [step, main_loop]
    split_ifs
    · exact ⟨by simp, by simp [(Process_Frame_globals s).1, hl]⟩
    · exact ⟨hi, hl⟩

theorem run_inv (acts : List Action) :
    ∀ s : State, s.rx_index ≤ 39 ∧ s.rx_buffer.length = 40 →
      (run s acts).rx_index ≤ 39 ∧ (run s acts).rx_buffer.length = 40 := by
  induction acts with
  | nil => intro s h; exact h
  | cons a acts ih => intro s h; exact ih (step s a) (step_inv s a h)

theorem main_init_inv : main_init.rx_index ≤ 39 ∧ main_init.rx_buffer.length = 40 := by
  decide

/-! ## Frame accumulator: claims C5, C6 -/

/-- C5. From any state with a 40-byte buffer (whatever its content, cursor and
flag) and for any bytes `w` free of `<` and `>`, receiving `<`, `w`, `>` leaves the
buffer starting with the first `min |w| 39` bytes of `w` followed by the
terminator, the cursor at `min |w| 39` and the flag set; after `<` and `w` alone
the flag still has its initial value. Nothing is transmitted and no output is
written: the record of effects and the four output levels are unchanged. -/
theorem Serial_ISR_frame (s : State) (w : List Nat) (hlen : s.rx_buffer.length = 40)
    (hw : ∀ c ∈ w, c ≠ 60 ∧ c ≠ 62) :
    (feed s (60 :: w ++ [62])).rx_buffer.take (min w.length 39 + 1) = w.take 39 ++ [0] ∧
    (feed s (60 :: w ++ [62])).rx_buffer.length = 40 ∧
    (feed s (60 :: w ++ [62])).rx_index = min w.length 39 ∧
    (feed s (60 :: w ++ [62])).frame_received = true ∧
    (feed s (60 :: w)).frame_received = s.frame_received ∧
    (feed s (60 :: w ++ [62])).trace = s.trace ∧
    (feed s (60 :: w ++ [62])).leds = s.leds := by
  obtain ⟨tail, h, hl⟩ := feed_frame s w hlen hw
  have hm : (w.take 39).length = min w.length 39 := by simp [Nat.min_comm]
  refine ⟨?_, by rw [h]; exact hl, by rw [h], by rw [h], ?_, by rw [h], by rw [h]; exact rfl⟩
  · rw [h]
    show (w.take 39 ++ 0 :: tail).take (min w.length 39 + 1) = w.take 39 ++ [0]
    rw [← hm, List.take_append_eq_append_take]
    simp
  · have h60 : Serial_ISR true 60 s = { s with rx_index := 0 } := by simp [Serial_ISR]
    obtain ⟨b', h1, _⟩ := feed_data w hw (Serial_ISR true 60 s) [] s.rx_buffer
      (by rw [h60]; simp) (by rw [h60]; simp) (by simp) (by simpa using hlen)
    rw [feed_cons, h1, h60]

/-- A 45-byte frame received while an earlier frame is still pending is cut to its
first 39 bytes. -/
theorem Serial_ISR_frame_witness :
    (feed (frameState (bytes ("01,01,02"))) (60 :: List.replicate 45 49 ++ [62])).rx_buffer.take
        (min (List.replicate 45 49).length 39 + 1) = (List.replicate 45 49).take 39 ++ [0] ∧
    (feed (frameState (bytes ("01,01,02"))) (60 :: List.replicate 45 49 ++ [62])).rx_buffer.length
        = 40 ∧
    (feed (frameState (bytes ("01,01,02"))) (60 :: List.replicate 45 49 ++ [62])).rx_index
        = min (List.replicate 45 49).length 39 ∧
    (feed (frameState (bytes ("01,01,02"))) (60 :: List.replicate 45 49 ++ [62])).frame_received
        = true ∧
    (feed (frameState (bytes ("01,01,02"))) (60 :: List.replicate 45 49)).frame_received
        = (frameState (bytes ("01,01,02"))).frame_received ∧
    (feed (frameState (bytes ("01,01,02"))) (60 :: List.replicate 45 49 ++ [62])).trace
        = (frameState (bytes ("01,01,02"))).trace ∧
    (feed (frameState (bytes ("01,01,02"))) (60 :: List.replicate 45 49 ++ [62])).leds
        = (frameState (bytes ("01,01,02"))).leds :=
  Serial_ISR_frame (frameState (bytes ("01,01,02"))) (List.replicate 45 49) (by decide)
    (by decide)

/-- C6. In every state reached from the entry of the idle loop by serial
interrupts (with any bytes) and idle-loop passes, the cursor is at most 39 and the
buffer has 40 bytes; a `>` received there stores the terminator inside the buffer,
at the cursor; any other data byte is stored inside the buffer at the cursor,
which is then at most 38, when the cursor is below 39, and leaves the whole
state unchanged when the cursor is 39. -/
theorem rx_index_capacity (acts : List Action) :
    (run main_init acts).rx_index ≤ 39 ∧
    (run main_init acts).rx_buffer.length = 40 ∧
    (Serial_ISR true 62 (run main_init acts)).rx_buffer[(run main_init acts).rx_index]?
      = some 0 ∧
    ∀ c : Nat, c ≠ 60 → c ≠ 62 →
      ((run main_init acts).rx_index < 39 →
        (run main_init acts).rx_index ≤ 38 ∧
        (Serial_ISR true c (run main_init acts)).rx_buffer[(run main_init acts).rx_index]?
          = some c ∧
        (Serial_ISR true c (run main_init acts)).rx_index
          = (run main_init acts).rx_index + 1) ∧
      ((run main_init acts).rx_index = 39 →
        Serial_ISR true c (run main_init acts) = run main_init acts) := by
  obtain ⟨hi, hl⟩ := run_inv acts main_init main_init_inv
  generalize run main_init acts = s at hi hl
  refine ⟨hi, hl, ?_, ?_⟩
  · simp only [Serial_ISR, if_true]
    exact List.getElem?_set_self (by omega)
  · intro c h60 h62
    constructor
    · intro hlt
      refine ⟨by omega, ?_, ?_⟩
      · simp only [Serial_ISR, if_true, if_neg h60, if_neg h62, if_pos hlt]
        exact List.getElem?_set_self (by omega)
      · simp only [Serial_ISR, if_true, if_neg h60, if_neg h62, if_pos hlt]
        exact Nat.mod_eq_of_lt (by omega)
    · intro h39
      simp [Serial_ISR, h60, h62, h39]

/-- After `<12>`, an idle pass and `<7`, a further byte `8` is stored at index 1. -/
theorem rx_index_capacity_witness :
    (run main_init [Action.isr true 60, Action.isr true 49, Action.isr true 50,
        Action.isr true 62, Action.idle, Action.isr true 60, Action.isr true 55]).rx_index
      ≤ 38 ∧
    (Serial_ISR true 56 (run main_init [Action.isr true 60, Action.isr true 49,
        Action.isr true 50, Action.isr true 62, Action.idle, Action.isr true 60,
        Action.isr true 55])).rx_buffer[(run main_init [Action.isr true 60,
        Action.isr true 49, Action.isr true 50, Action.isr true 62, Action.idle,
        Action.isr true 60, Action.isr true 55]).rx_index]? = some 56 ∧
    (Serial_ISR true 56 (run main_init [Action.isr true 60, Action.isr true 49,
        Action.isr true 50, Action.isr true 62, Action.idle, Action.isr true 60,
        Action.isr true 55])).rx_index
      = (run main_init [Action.isr true 60, Action.isr true 49, Action.isr true 50,
        Action.isr true 62, Action.idle, Action.isr true 60, Action.isr true 55]).rx_index
        + 1 :=
  ((rx_index_capacity [Action.isr true 60, Action.isr true 49, Action.isr true 50,
      Action.isr true 62, Action.idle, Action.isr true 60, Action.isr true 55]).2.2.2 56
    (by decide) (by decide)).1 (by decide)

/-! ## Lemmas for the end-to-end path -/

theorem takeWhile_stop (p : Nat → Bool) (m t : List Nat) (x : Nat) (hx : p x = false) :
    (m ++ x :: t).takeWhile p = m.takeWhile p := by
  induction m with
  | nil => simp [hx]
  | cons c m ih =>
    by_cases hc : p c = true
    · simp [List.takeWhile_cons, hc, ih]
    · simp [List.takeWhile_cons, hc]

theorem dropWhile_stop (p : Nat → Bool) (m t : List Nat) (x : Nat) (hx : p x = false) :
    (m ++ x :: t).dropWhile p = m.dropWhile p ++ x :: t := by
  induction m with
  | nil => simp [hx]
  | cons c m ih =>
    by_cases hc : p c = true
    · simp [List.dropWhile_cons, hc, ih]
    · simp [List.dropWhile_cons, hc]

theorem length_takeWhile_le (p : Nat → Bool) (l : List Nat) :
    (l.takeWhile p).length ≤ l.length := by
  induction l with
  | nil => simp
  | cons c l ih =>
    by_cases hc : p c = true
    · simp [List.takeWhile_cons, hc, ih]
    · simp [List.takeWhile_cons, hc]

theorem length_takeWhile_add_dropWhile (p : Nat → Bool) (l : List Nat) :
    (l.takeWhile p).length + (l.dropWhile p).length = l.length := by
  induction l with
  | nil => simp
  | cons c l ih =>
    by_cases hc : p c = true
    · simp [List.takeWhile_cons, List.dropWhile_cons, hc]
      omega
    · simp [List.takeWhile_cons, List.dropWhile_cons, hc]

/-- On a buffer holding `q`, a terminator and then `t`, a scan that starts inside
`q` or on the terminator does not depend on `t` and does not move past the
terminator. -/
theorem Parse_Int_terminated (q t : List Nat) (pos : Nat) (h : pos ≤ q.length) :
    Parse_Int (q ++ 0 :: t) pos
      = (if (q.drop pos).headD 0 = 0 then (-1, pos)
         else (accumulate 0 (((q.drop pos).dropWhile (fun c => decide (c = 44))).takeWhile isDigit),
           pos + ((q.drop pos).takeWhile (fun c => decide (c = 44))).length
             + (((q.drop pos).dropWhile (fun c => decide (c = 44))).takeWhile isDigit).length)) ∧
    (Parse_Int (q ++ 0 :: t) pos).2 ≤ q.length := by
  have hdrop : (q ++ 0 :: t).drop pos = q.drop pos ++ 0 :: t :=
    List.drop_append_of_le_length h
  have hget : (q ++ 0 :: t).getD pos 0 = (q.drop pos).headD 0 := by
    have h1 : (q ++ 0 :: t).getD pos 0 = ((q ++ 0 :: t).drop pos).headD 0 := by
      rw [List.getD_eq_getElem?_getD, ← List.head?_drop]
      cases (List.drop pos (q ++ 0 :: t)) <;> rfl
    rw [h1, hdrop]
    cases q.drop pos <;> rfl
  have heq : Parse_Int (q ++ 0 :: t) pos
      = (if (q.drop pos).headD 0 = 0 then (-1, pos)
         else (accumulate 0 (((q.drop pos).dropWhile (fun c => decide (c = 44))).takeWhile isDigit),
           pos + ((q.drop pos).takeWhile (fun c => decide (c = 44))).length
             + (((q.drop pos).dropWhile (fun c => decide (c = 44))).takeWhile isDigit).length)) := by
    rw [Parse_Int_eq, hget]
    simp only [fieldDigits, hdrop]
    rw [takeWhile_stop _ _ _ 0 (by decide), dropWhile_stop _ _ _ 0 (by decide),
      takeWhile_stop _ _ _ 0 (by decide)]
  refine ⟨heq, ?_⟩
  rw [heq]
  split_ifs
  · exact h
  · have h1 := length_takeWhile_add_dropWhile (fun c => decide (c = 44)) (q.drop pos)
    have h2 := length_takeWhile_le isDigit ((q.drop pos).dropWhile (fun c => decide (c = 44)))
    have h3 : (q.drop pos).length = q.length - pos := List.length_drop pos q
    simp only
    omega

theorem scanFrom_terminated (q t t' : List Nat) (n : Nat) :
    scanFrom (q ++ 0 :: t) 0 n = scanFrom (q ++ 0 :: t') 0 n ∧
      (scanFrom (q ++ 0 :: t) 0 n).2 ≤ q.length := by
  induction n with
  | zero =>
    have h1 := Parse_Int_terminated q t 0 (Nat.zero_le _)
    have h2 := Parse_Int_terminated q t' 0 (Nat.zero_le _)
    exact ⟨by simp only [scanFrom]; rw [h1.1, h2.1], h1.2⟩
  | succ n ih =>
    have h1 := Parse_Int_terminated q t _ ih.2
    have h2 := Parse_Int_terminated q t' _ ih.2
    refine ⟨?_, h1.2⟩
    simp only [scanFrom]
    rw [← ih.1, h1.1, h2.1]

theorem field_terminated (q t t' : List Nat) : field (q ++ 0 :: t) = field (q ++ 0 :: t') := by
  funext n
  simp only [field]
  rw [(scanFrom_terminated q t t' n).1]

/-- The effects and outputs of the dispatch depend on the state only through its
outputs and its record of effects. -/
theorem Process_Frame_on_congr (f : Nat → Int) (s1 s2 : State)
    (hl : s1.leds = s2.leds) (ht : s1.trace = s2.trace) :
    (Process_Frame_on f s1).trace = (Process_Frame_on f s2).trace ∧
      (Process_Frame_on f s1).leds = (Process_Frame_on f s2).leds := by
  simp only [State.leds, Prod.mk.injEq] at hl
  obtain ⟨hp, hli, hfe, hd⟩ := hl
  unfold Process_Frame_on
  split_ifs <;>
    (try simp only [ack_pump_eq, ack_light_eq, ack_feeder_eq, ack_disp_eq, CHECKSUM_ERR_eq,
      unknown_device_eq]) <;>
    simp only [State.leds, hp, hli, hfe, hd, ht, and_self]

theorem frameBuf_eq (p : List Nat) (hp : p.length ≤ 39) :
    frameBuf p = p ++ 0 :: List.replicate (39 - p.length) 0 := by
  have : 40 - p.length = (39 - p.length) + 1 := by omega
  rw [frameBuf, this, List.replicate_succ]

/-! ## End-to-end: claim C7 -/

/-- C7. From any state with a 40-byte buffer and for any payload `p` of at most 39
bytes free of `<`, `>` and the terminator, receiving `<`, `p`, `>` and then running
one pass of the idle loop yields the same record of effects and the same four
output levels as `Process_Frame` run on a buffer holding `p`, and ends with the
flag clear and the cursor at 0. -/
theorem frame_end_to_end (s : State) (p : List Nat) (hlen : s.rx_buffer.length = 40)
    (hp : p.length ≤ 39) (hchars : ∀ c ∈ p, c ≠ 60 ∧ c ≠ 62 ∧ c ≠ 0) :
    (main_loop (feed s (60 :: p ++ [62]))).trace
      = (Process_Frame { s with rx_buffer := frameBuf p }).trace ∧
    (main_loop (feed s (60 :: p ++ [62]))).leds
      = (Process_Frame { s with rx_buffer := frameBuf p }).leds ∧
    (main_loop (feed s (60 :: p ++ [62]))).frame_received = false ∧
    (main_loop (feed s (60 :: p ++ [62]))).rx_index = 0 := by
  obtain ⟨tail, h, _⟩ := feed_frame s p hlen (fun c hc => ⟨(hchars c hc).1, (hchars c hc).2.1⟩)
  rw [List.take_of_length_le (by omega)] at h
  have hm : main_loop (feed s (60 :: p ++ [62]))
      = { Process_Frame (feed s (60 :: p ++ [62])) with
          frame_received := false, rx_index := 0 } := by
    rw [h]
    rfl
  have hf : field (feed s (60 :: p ++ [62])).rx_buffer
      = field ({ s with rx_buffer := frameBuf p } : State).rx_buffer := by
    rw [h]
    simp only [frameBuf_eq p hp]
    exact field_terminated p tail _
  have hc := Process_Frame_on_congr (field ({ s with rx_buffer := frameBuf p } : State).rx_buffer)
    (feed s (60 :: p ++ [62])) { s with rx_buffer := frameBuf p } (by rw [h]; rfl)
    (by rw [h])
  rw [hm]
  refine ⟨?_, ?_, rfl, rfl⟩
  · show (Process_Frame _).trace = _
    rw [Process_Frame_eq, Process_Frame_eq, hf]
    exact hc.1
  · show (Process_Frame _).leds = _
    rw [Process_Frame_eq, Process_Frame_eq, hf]
    exact hc.2

/-- The frame `<01,01,02>` received at the entry of the idle loop, and the replies
to `<01,01,02>`, `<02,01,50,53>`, `<04,01,00>` and `<01,01,99>`. -/
theorem frame_end_to_end_witness :
    ((main_loop (feed main_init (60 :: bytes ("01,01,02") ++ [62]))).trace
        = (Process_Frame { main_init with rx_buffer := frameBuf (bytes ("01,01,02")) }).trace ∧
      (main_loop (feed main_init (60 :: bytes ("01,01,02") ++ [62]))).leds
        = (Process_Frame { main_init with rx_buffer := frameBuf (bytes ("01,01,02")) }).leds ∧
      (main_loop (feed main_init (60 :: bytes ("01,01,02") ++ [62]))).frame_received = false ∧
      (main_loop (feed main_init (60 :: bytes ("01,01,02") ++ [62]))).rx_index = 0) ∧
    uartOut (main_loop (feed main_init (bytes ("<01,01,02>")))).trace
      = uartOut main_init.trace ++ ("ACK: Pump Updated\r\n<ACK>").toList ∧
    uartOut (main_loop (feed main_init (bytes ("<02,01,50,53>")))).trace
      = uartOut main_init.trace ++ ("ACK: Light Set. Brightness: UPDATED\r\n<ACK>").toList ∧
    uartOut (main_loop (feed main_init (bytes ("<04,01,00>")))).trace
      = uartOut main_init.trace ++ ("ERR: Unknown Device\r\n<ERR>").toList ∧
    uartOut (main_loop (feed main_init (bytes ("<01,01,99>")))).trace
      = uartOut main_init.trace ++ ("ERR: Checksum Fail\r\n<ERR>").toList :=
  ⟨frame_end_to_end main_init (bytes ("01,01,02")) (by decide) (by decide) (by decide),
   by decide, by decide, by decide, by decide⟩

/-! ## Lemmas on the branches of the command processor -/

theorem Process_Frame_pump_ok (s : State) (h0 : field s.rx_buffer 0 = 1)
    (hc : calculated_sum (field s.rx_buffer) = field s.rx_buffer 2) :
    Process_Frame s
      = { s with
          LED_PUMP := (if field s.rx_buffer 1 = 1 then false else true)
          trace := s.trace
            ++ Effect.pin Pin.PUMP (if field s.rx_buffer 1 = 1 then false else true)
            :: ("ACK: Pump Updated\r\n<ACK>").toList.map Effect.tx } := by
  simp only [calculated_sum, field_sum, h0, if_true] at hc
  rw [Process_Frame_eq]
  simp only [Process_Frame_on, h0, hc, if_true]
  rw [if_neg (by decide), ack_pump_eq]

theorem Process_Frame_light_ok (s : State) (h0 : field s.rx_buffer 0 = 2)
    (hc : calculated_sum (field s.rx_buffer) = field s.rx_buffer 3) :
    Process_Frame s
      = { s with
          LED_LIGHT := decide (field s.rx_buffer 1 = 1)
          trace := s.trace ++ Effect.pin Pin.LIGHT (decide (field s.rx_buffer 1 = 1))
            :: ("ACK: Light Set. Brightness: UPDATED\r\n<ACK>").toList.map Effect.tx } := by
  simp only [calculated_sum, field_sum, h0] at hc
  rw [if_neg (by decide), if_neg (by decide)] at hc
  rw [Process_Frame_eq]
  simp only [Process_Frame_on, h0, hc, if_true]
  rw [if_neg (by decide), if_neg (by decide), ack_light_eq]

theorem Process_Frame_feeder_ok (s : State) (h0 : field s.rx_buffer 0 = 3)
    (hc : calculated_sum (field s.rx_buffer) = field s.rx_buffer 3) :
    Process_Frame s
      = { s with
          LED_FEEDER := false
          trace := s.trace ++ Effect.pin Pin.FEEDER true :: Effect.delay 500
            :: Effect.pin Pin.FEEDER false
            :: ("ACK: Feeding Done\r\n<ACK>").toList.map Effect.tx } := by
  simp only [calculated_sum, field_sum, h0] at hc
  rw [if_neg (by decide), if_neg (by decide)] at hc
  rw [Process_Frame_eq]
  simp only [Process_Frame_on, h0, hc, if_true]
  rw [if_neg (by decide), if_neg (by decide), if_neg (by decide), ack_feeder_eq]

theorem Process_Frame_disp_ok (s : State) (h0 : field s.rx_buffer 0 = 5)
    (hc : calculated_sum (field s.rx_buffer) = field s.rx_buffer 5) :
    Process_Frame s
      = { s with
          LED_DISP := !s.LED_DISP
          trace := s.trace ++ Effect.pin Pin.DISP (!s.LED_DISP)
            :: ("ACK: Display Schedule Updated\r\n<ACK>").toList.map Effect.tx } := by
  simp only [calculated_sum, field_sum, h0, if_true] at hc
  rw [if_neg (by decide)] at hc
  rw [Process_Frame_eq]
  simp only [Process_Frame_on, h0, hc, if_true]
  rw [if_neg (by decide), if_neg (by decide), if_neg (by decide), if_neg (by decide),
    ack_disp_eq]

/-- In the branches of devices 1, 2, 3 and 5 a checksum that differs from the
calculated one leads to the label `CHECKSUM_ERR` and to nothing else. -/
theorem Process_Frame_mismatch (s : State)
    (hd : field s.rx_buffer 0 = 1 ∨ field s.rx_buffer 0 = 2 ∨ field s.rx_buffer 0 = 3
      ∨ field s.rx_buffer 0 = 5)
    (hc : calculated_sum (field s.rx_buffer)
      ≠ field s.rx_buffer (checksumIndex (field s.rx_buffer 0))) :
    Process_Frame s
      = { s with
          trace := s.trace ++ ("ERR: Checksum Fail\r\n<ERR>").toList.map Effect.tx } := by
  rw [Process_Frame_eq]
  rcases hd with h0 | h0 | h0 | h0
  · simp only [calculated_sum, field_sum, checksumIndex, h0, if_true] at hc
    simp only [Process_Frame_on, h0, if_true, if_neg hc]
    rw [if_neg (by decide), CHECKSUM_ERR_eq]
  · simp only [calculated_sum, field_sum, checksumIndex, h0] at hc
    rw [if_neg (by decide), if_neg (by decide), if_neg (by decide), if_neg (by decide)] at hc
    simp only [Process_Frame_on, h0, if_true, if_neg hc]
    rw [if_neg (by decide), if_neg (by decide), CHECKSUM_ERR_eq]
  · simp only [calculated_sum, field_sum, checksumIndex, h0] at hc
    rw [if_neg (by decide), if_neg (by decide), if_neg (by decide), if_neg (by decide)] at hc
    simp only [Process_Frame_on, h0, if_true, if_neg hc]
    rw [if_neg (by decide), if_neg (by decide), if_neg (by decide), CHECKSUM_ERR_eq]
  · simp only [calculated_sum, field_sum, checksumIndex, h0, if_true] at hc
    rw [if_neg (by decide), if_neg (by decide)] at hc
    simp only [Process_Frame_on, h0, if_true, if_neg hc]
    rw [if_neg (by decide), if_neg (by decide), if_neg (by decide), if_neg (by decide),
      CHECKSUM_ERR_eq]

/-! ## Actuator actions: claims C11 to C15 -/

/-- C11 (the code at the failing input). The pump frame `01,01,02`, whose state is 1
and whose checksum matches, is acknowledged and writes the level 0 to the pump
pin, which the comment on that line (`1=ON, 0=OFF`) calls OFF; the pump frame
`01,00,01` with state 0 writes the level 1. The light frame `02,01,50,53` with
state 1 writes the level 1 to the light pin. -/
theorem pump_level_inverted :
    (Process_Frame (frameState (bytes ("01,01,02")))).trace
      = Effect.pin Pin.PUMP false :: (("ACK: Pump Updated\r\n<ACK>").toList.map Effect.tx) ∧
    (Process_Frame (frameState (bytes ("01,01,02")))).LED_PUMP = false ∧
    (Process_Frame (frameState (bytes ("01,00,01")))).trace
      = Effect.pin Pin.PUMP true :: (("ACK: Pump Updated\r\n<ACK>").toList.map Effect.tx) ∧
    (Process_Frame (frameState (bytes ("01,00,01")))).LED_PUMP = true ∧
    (Process_Frame (frameState (bytes ("02,01,50,53")))).LED_LIGHT = true := by
  decide

/-- C15. On every branch `Process_Frame` leaves the buffer bytes, the cursor
`rx_index` and the flag `frame_received` as they are. One pass of the idle loop
changes nothing when the flag is clear; when the flag is set it yields the state
after one run of `Process_Frame` with the flag cleared and the cursor set to 0,
the buffer bytes being those before the pass. -/
theorem buffer_reset_by_idle_loop (s : State) :
    ((Process_Frame s).rx_buffer = s.rx_buffer ∧ (Process_Frame s).rx_index = s.rx_index ∧
      (Process_Frame s).frame_received = s.frame_received) ∧
    (s.frame_received = false → main_loop s = s) ∧
    (s.frame_received = true →
      main_loop s = { Process_Frame s with frame_received := false, rx_index := 0 } ∧
      (main_loop s).frame_received = false ∧ (main_loop s).rx_index = 0 ∧
      (main_loop s).rx_buffer = s.rx_buffer) := by
  refine ⟨Process_Frame_globals s, ?_, ?_⟩
  · intro h
    simp [main_loop, h]
  · intro h
    have hm : main_loop s = { Process_Frame s with frame_received := false, rx_index := 0 } := by
      simp [main_loop, h]
    rw [hm]
    exact ⟨rfl, rfl, rfl, (Process_Frame_globals s).1⟩

/-- The idle loop on a state without a pending frame, and on the pending frames
`01,01,02` (acknowledged), `01,01,99` (checksum error), `04,01,00` (unknown
device) and the empty frame (silent). -/
theorem buffer_reset_by_idle_loop_witness :
    main_loop main_init = main_init ∧
    (main_loop (frameState (bytes ("01,01,02")))
        = { Process_Frame (frameState (bytes ("01,01,02"))) with
            frame_received := false, rx_index := 0 } ∧
      (main_loop (frameState (bytes ("01,01,02")))).frame_received = false ∧
      (main_loop (frameState (bytes ("01,01,02")))).rx_index = 0 ∧
      (main_loop (frameState (bytes ("01,01,02")))).rx_buffer
        = (frameState (bytes ("01,01,02"))).rx_buffer) ∧
    (main_loop (frameState (bytes ("01,01,99")))).rx_buffer
      = (frameState (bytes ("01,01,99"))).rx_buffer ∧
    (main_loop (frameState (bytes ("04,01,00")))).rx_index = 0 ∧
    (main_loop (frameState [])).frame_received = false :=
  ⟨(buffer_reset_by_idle_loop main_init).2.1 (by decide),
   (buffer_reset_by_idle_loop (frameState (bytes ("01,01,02")))).2.2 (by decide),
   by decide, by decide, by decide⟩

/-! ## Lemmas on the calculated checksum -/

theorem cRem_bounds (x : Int) : -255 ≤ cRem x 256 ∧ cRem x 256 ≤ 255 := by
  unfold cRem
  cases x with
  | ofNat n =>
    show -255 ≤ ((n % 256 : Nat) : Int) ∧ ((n % 256 : Nat) : Int) ≤ 255
    omega
  | negSucc n =>
    show -255 ≤ -(((n + 1) % 256 : Nat) : Int) ∧ -(((n + 1) % 256 : Nat) : Int) ≤ 255
    omega

theorem Parse_Int_at_terminator (buf : List Nat) (pos : Nat) (h : buf.getD pos 0 = 0) :
    Parse_Int buf pos = (-1, pos) := by
  rw [Parse_Int_eq, if_pos h]

/-- The first scan of a buffer that starts with the non-empty digit text `ds`
followed by a non-digit byte ends right after `ds`. -/
theorem device_scan_end (ds rest : List Nat) (hne : ds ≠ [])
    (hd : ∀ c ∈ ds, isDigit c = true)
    (hrest : ∀ c, rest.head? = some c → isDigit c = false) :
    (Parse_Int (ds ++ rest) 0).2 = ds.length := by
  obtain ⟨d, ds', rfl⟩ := List.exists_cons_of_ne_nil hne
  have hdig : 48 ≤ d ∧ d ≤ 57 := by
    have := hd d (by simp)
    simpa [isDigit] using this
  have hm : ((d :: ds') ++ rest).head? ≠ some 44 := by
    simp only [List.cons_append, List.head?_cons, ne_eq, Option.some.injEq]
    omega
  have hnz : (List.replicate 0 44 ++ ((d :: ds') ++ rest)).headD 0 ≠ 0 := by
    simp only [List.replicate_zero, List.nil_append, List.cons_append, List.headD_cons]
    omega
  have h := Parse_Int_commas [] ((d :: ds') ++ rest) 0 hm hnz
  rw [takeWhile_digits (d :: ds') rest hd hrest] at h
  simp only [List.replicate_zero, List.nil_append, List.length_nil, Nat.zero_add] at h
  rw [h]

/-- In the branches of devices 1, 2, 3 and 5 `Process_Frame` transmits the
acknowledgement of the device exactly when the scanned checksum field equals the
calculated checksum. -/
theorem ack_iff_checksum (s : State)
    (hd : field s.rx_buffer 0 = 1 ∨ field s.rx_buffer 0 = 2 ∨ field s.rx_buffer 0 = 3
      ∨ field s.rx_buffer 0 = 5) :
    uartOut (Process_Frame s).trace = uartOut s.trace ++ ackText (field s.rx_buffer 0)
      ↔ field s.rx_buffer (checksumIndex (field s.rx_buffer 0))
          = calculated_sum (field s.rx_buffer) := by
  constructor
  · intro h
    by_contra hne
    rw [Process_Frame_mismatch s hd (Ne.symm hne)] at h
    simp only [uartOut_append, uartOut_tx] at h
    have h' := List.append_cancel_left h
    rcases hd with h0 | h0 | h0 | h0 <;> rw [h0] at h' <;> exact absurd h' (by decide)
  · intro h
    rcases hd with h0 | h0 | h0 | h0
    · have hk : checksumIndex (field s.rx_buffer 0) = 2 := by rw [h0]; rfl
      rw [hk] at h
      rw [Process_Frame_pump_ok s h0 h.symm, h0]
      exact uartOut_pin_tx _ _ _ _
    · have hk : checksumIndex (field s.rx_buffer 0) = 3 := by rw [h0]; rfl
      rw [hk] at h
      rw [Process_Frame_light_ok s h0 h.symm, h0]
      exact uartOut_pin_tx _ _ _ _
    · have hk : checksumIndex (field s.rx_buffer 0) = 3 := by rw [h0]; rfl
      rw [hk] at h
      rw [Process_Frame_feeder_ok s h0 h.symm, h0]
      show uartOut (s.trace ++ _) = _
      rw [uartOut_append]
      simp only [uartOut, uartOut_tx]
      rfl
    · have hk : checksumIndex (field s.rx_buffer 0) = 5 := by rw [h0]; rfl
      rw [hk] at h
      rw [Process_Frame_disp_ok s h0 h.symm, h0]
      exact uartOut_pin_tx _ _ _ _

/-! ## Absent fields and the checksum range: claims C16, C17, C19 -/

/-- C16 (as amended). When the payload is a non-empty digit text and nothing else,
the state code scanned by `Process_Frame` (its second scan) is -1; when the
device digits are followed by one or more commas and nothing else, it is 0. -/
theorem state_code_absent (ds rest : List Nat) (k : Nat) (hne : ds ≠ [])
    (hd : ∀ c ∈ ds, isDigit c = true) :
    field (ds ++ 0 :: rest) 1 = -1 ∧
    (0 < k → field (ds ++ List.replicate k 44 ++ 0 :: rest) 1 = 0) := by
  constructor
  · have h0 := device_scan_end ds (0 :: rest) hne hd (by simp [isDigit])
    simp only [field, scanFrom, h0]
    rw [Parse_Int_at_terminator _ _ (by rw [getD_append_at]; rfl)]
  · intro hk
    have h0 := device_scan_end ds (List.replicate k 44 ++ 0 :: rest) hne hd (by
      cases k with
      | zero => omega
      | succ k => simp [List.replicate_succ, isDigit])
    have hnz : (List.replicate k 44 ++ 0 :: rest).headD 0 ≠ 0 := by
      cases k with
      | zero => omega
      | succ k => simp [List.replicate_succ]
    have h1 := Parse_Int_commas ds (0 :: rest) k (by simp) hnz
    simp only [field, scanFrom, List.append_assoc, h0, h1]
    simp [isDigit, accumulate]

/-- The payloads `01` and `01,`. -/
theorem state_code_absent_witness :
    field ([48, 49] ++ 0 :: List.replicate 37 0) 1 = -1 ∧
    (0 < 1 → field ([48, 49] ++ List.replicate 1 44 ++ 0 :: List.replicate 37 0) 1 = 0) :=
  state_code_absent [48, 49] (List.replicate 37 0) 1 (by decide) (by decide)

/-- C16 (as stated) fails on the payload `01`: a device code is found, the payload
ends right after the device digits, and the state code is -1, so the calculated
checksum is (1 + -1) % 256 = 0 and not 1. -/
theorem state_code_absent_counterexample :
    field (frameBuf (bytes ("01"))) 0 = 1 ∧
    field (frameBuf (bytes ("01"))) 1 = -1 ∧
    field (frameBuf (bytes ("01"))) 1 ≠ 0 ∧
    calculated_sum (field (frameBuf (bytes ("01")))) = 0 := by
  decide

/-- C17 (as amended). In the branches of devices 1, 2, 3 and 5 `Process_Frame`
transmits the acknowledgement of the device exactly when the scanned checksum
field equals the calculated checksum, and otherwise its only effects are the
characters of the checksum error reply. That calculated checksum is C's
remainder of the `int` sum of the scanned fields by 256: a value in -255..255,
which is the sum of the scanned fields modulo 256 whenever the `int` sum is not
negative. Hence a frame whose received checksum field is below -255 or above
255 gets the checksum error reply and no output is written. -/
theorem calculated_sum_range (s : State) :
    (-255 ≤ calculated_sum (field s.rx_buffer) ∧ calculated_sum (field s.rx_buffer) ≤ 255) ∧
    (field s.rx_buffer 0 = 1 → 0 ≤ field_sum (field s.rx_buffer) →
      calculated_sum (field s.rx_buffer)
        = specChecksum [field s.rx_buffer 0, field s.rx_buffer 1]) ∧
    (field s.rx_buffer 0 = 2 ∨ field s.rx_buffer 0 = 3 → 0 ≤ field_sum (field s.rx_buffer) →
      calculated_sum (field s.rx_buffer)
        = specChecksum [field s.rx_buffer 0, field s.rx_buffer 1, field s.rx_buffer 2]) ∧
    (field s.rx_buffer 0 = 5 → 0 ≤ field_sum (field s.rx_buffer) →
      calculated_sum (field s.rx_buffer)
        = specChecksum [field s.rx_buffer 0, field s.rx_buffer 1, field s.rx_buffer 2,
            field s.rx_buffer 3, field s.rx_buffer 4]) ∧
    (field s.rx_buffer 0 = 1 ∨ field s.rx_buffer 0 = 2 ∨ field s.rx_buffer 0 = 3
        ∨ field s.rx_buffer 0 = 5 →
      field s.rx_buffer (checksumIndex (field s.rx_buffer 0)) < -255
        ∨ 255 < field s.rx_buffer (checksumIndex (field s.rx_buffer 0)) →
      (Process_Frame s).trace
          = s.trace ++ (("ERR: Checksum Fail\r\n<ERR>").toList.map Effect.tx) ∧
        (Process_Frame s).leds = s.leds) ∧
    (field s.rx_buffer 0 = 1 ∨ field s.rx_buffer 0 = 2 ∨ field s.rx_buffer 0 = 3
        ∨ field s.rx_buffer 0 = 5 →
      (uartOut (Process_Frame s).trace = uartOut s.trace ++ ackText (field s.rx_buffer 0)
        ↔ field s.rx_buffer (checksumIndex (field s.rx_buffer 0))
            = calculated_sum (field s.rx_buffer)) ∧
      (field s.rx_buffer (checksumIndex (field s.rx_buffer 0))
          ≠ calculated_sum (field s.rx_buffer) →
        (Process_Frame s).trace
            = s.trace ++ (("ERR: Checksum Fail\r\n<ERR>").toList.map Effect.tx) ∧
          (Process_Frame s).leds = s.leds)) := by
  refine ⟨cRem_bounds _, ?_, ?_, ?_, ?_, ?_⟩
  · intro h0 hs
    rw [calculated_sum, cRem_of_nonneg hs]
    simp only [field_sum, h0, if_true, specChecksum, List.sum_cons, List.sum_nil, wrap16]
    omega
  · intro h0 hs
    rw [calculated_sum, cRem_of_nonneg hs]
    have hf : field_sum (field s.rx_buffer)
        = wrap16 (wrap16 (field s.rx_buffer 0 + field s.rx_buffer 1) + field s.rx_buffer 2) := by
      rcases h0 with h0 | h0 <;> simp [field_sum, h0]
    rw [hf]
    simp only [specChecksum, List.sum_cons, List.sum_nil, wrap16]
    omega
  · intro h0 hs
    rw [calculated_sum, cRem_of_nonneg hs]
    have hf : field_sum (field s.rx_buffer)
        = wrap16 (wrap16 (wrap16 (wrap16 (field s.rx_buffer 0 + field s.rx_buffer 1)
            + field s.rx_buffer 2) + field s.rx_buffer 3) + field s.rx_buffer 4) := by
      simp [field_sum, h0]
    rw [hf]
    simp only [specChecksum, List.sum_cons, List.sum_nil, wrap16]
    omega
  · intro hd hout
    have hb := cRem_bounds (field_sum (field s.rx_buffer))
    have hne : calculated_sum (field s.rx_buffer)
        ≠ field s.rx_buffer (checksumIndex (field s.rx_buffer 0)) := by
      unfold calculated_sum
      omega
    rw [Process_Frame_mismatch s hd hne]
    exact ⟨rfl, rfl⟩
  · intro hd
    refine ⟨ack_iff_checksum s hd, ?_⟩
    intro hne
    rw [Process_Frame_mismatch s hd (Ne.symm hne)]
    exact ⟨rfl, rfl⟩

/-- The frame `01,01,02` (calculated checksum 2, the sum modulo 256, equal to its
checksum field, acknowledged), the frame `01,01,00` (checksum field 0, not
acknowledged) and the frame `01,01,258`, rejected for its checksum field 258. -/
theorem calculated_sum_range_witness :
    calculated_sum (field (frameState (bytes ("01,01,02"))).rx_buffer)
      = specChecksum [field (frameState (bytes ("01,01,02"))).rx_buffer 0,
          field (frameState (bytes ("01,01,02"))).rx_buffer 1] ∧
    ((Process_Frame (frameState (bytes ("01,01,258")))).trace
        = (frameState (bytes ("01,01,258"))).trace
          ++ (("ERR: Checksum Fail\r\n<ERR>").toList.map Effect.tx) ∧
      (Process_Frame (frameState (bytes ("01,01,258")))).leds
        = (frameState (bytes ("01,01,258"))).leds) ∧
    uartOut (Process_Frame (frameState (bytes ("01,01,02")))).trace
      = uartOut (frameState (bytes ("01,01,02"))).trace
        ++ ackText (field (frameState (bytes ("01,01,02"))).rx_buffer 0) ∧
    ((Process_Frame (frameState (bytes ("01,01,00")))).trace
        = (frameState (bytes ("01,01,00"))).trace
          ++ (("ERR: Checksum Fail\r\n<ERR>").toList.map Effect.tx) ∧
      (Process_Frame (frameState (bytes ("01,01,00")))).leds
        = (frameState (bytes ("01,01,00"))).leds) :=
  ⟨(calculated_sum_range (frameState (bytes ("01,01,02")))).2.1 (by decide) (by decide),
   (calculated_sum_range (frameState (bytes ("01,01,258")))).2.2.2.2.1 (by decide)
     (by decide),
   ((calculated_sum_range (frameState (bytes ("01,01,02")))).2.2.2.2.2 (by decide)).1.mpr
     (by decide),
   ((calculated_sum_range (frameState (bytes ("01,01,00")))).2.2.2.2.2 (by decide)).2
     (by decide)⟩

/-- C17 (as stated) fails on the frame `1,32768,65281`: the calculated checksum is
-255, outside 0..255, and the frame, whose received checksum field scans as the
negative value -255, is acknowledged. -/
theorem calculated_sum_range_counterexample :
    field (frameState (bytes ("1,32768,65281"))).rx_buffer 0 = 1 ∧
    calculated_sum (field (frameState (bytes ("1,32768,65281"))).rx_buffer) = -255 ∧
    field (frameState (bytes ("1,32768,65281"))).rx_buffer 2 = -255 ∧
    uartOut (Process_Frame (frameState (bytes ("1,32768,65281")))).trace
      = ("ACK: Pump Updated\r\n<ACK>").toList := by
  decide

/-- The interrupt and the idle loop keep the cursor within 0..39, the buffer at 40
bytes and the byte at index 39 equal to 0. -/
theorem step_inv_terminated (s : State) (a : Action)
    (h : s.rx_index ≤ 39 ∧ s.rx_buffer.length = 40 ∧ s.rx_buffer[39]? = some 0) :
    (step s a).rx_index ≤ 39 ∧ (step s a).rx_buffer.length = 40 ∧
      (step s a).rx_buffer[39]? = some 0 := by
  obtain ⟨hi, hl, h39⟩ := h
  obtain ⟨hi', hl'⟩ := step_inv s a ⟨hi, hl⟩
  refine ⟨hi', hl', ?_⟩
  cases a with
  | isr RI SBUF =>
    simp only [step, Serial_ISR]
    split_ifs with h1 h2 h3 h4
    · exact h39
    · simp only [List.getElem?_set]
      split_ifs <;> first | rfl | exact h39 | omega
    · simp only [List.getElem?_set]
      rw [if_neg (by omega)]
      exact h39
    · exact h39
    · exact h39
  | idle =>
    simp only [step, main_loop]
    split_ifs
    · show (Process_Frame s).rx_buffer[39]? = some 0
      rw [(Process_Frame_globals s).1]
      exact h39
    · exact h39

theorem run_inv_terminated (acts : List Action) :
    ∀ s : State, s.rx_index ≤ 39 ∧ s.rx_buffer.length = 40 ∧ s.rx_buffer[39]? = some 0 →
      (run s acts).rx_index ≤ 39 ∧ (run s acts).rx_buffer.length = 40 ∧
        (run s acts).rx_buffer[39]? = some 0 := by
  induction acts with
  | nil => intro s h; exact h
  | cons a acts ih => intro s h; exact ih (step s a) (step_inv_terminated s a h)

theorem main_init_terminated :
    main_init.rx_index ≤ 39 ∧ main_init.rx_buffer.length = 40 ∧
      main_init.rx_buffer[39]? = some 0 := by
  decide

/-- A 40-byte buffer whose byte 39 is 0 is its first 39 bytes followed by 0. -/
theorem buffer_split (l : List Nat) (hl : l.length = 40) (h39 : l[39]? = some 0) :
    l = l.take 39 ++ 0 :: [] := by
  have h1 : l.drop 39 = [0] := by
    have hlt : 39 < l.length := by omega
    rw [List.drop_eq_getElem_cons hlt]
    have hg : l[39] = 0 := by
      rw [List.getElem?_eq_getElem hlt] at h39
      exact Option.some.inj h39
    rw [hg, List.drop_of_length_le (by omega)]
  conv_lhs => rw [← List.take_append_drop 39 l, h1]

/-- C18. In every state reached from the entry of the idle loop by serial
interrupts (with any bytes) and idle-loop passes, byte 39 of the buffer is 0;
hence every scan that `Process_Frame` makes from the start of the buffer returns
a cursor of at most 39, and its result is the same whatever memory follows the
40 bytes of the buffer: no scan reads outside indices 0..39. -/
theorem buffer_always_terminated (acts : List Action) :
    (run main_init acts).rx_buffer[39]? = some 0 ∧
    (∀ n, (scanFrom (run main_init acts).rx_buffer 0 n).2 ≤ 39) ∧
    (∀ (beyond : List Nat) (n : Nat),
      scanFrom ((run main_init acts).rx_buffer ++ beyond) 0 n
        = scanFrom (run main_init acts).rx_buffer 0 n) := by
  obtain ⟨_, hl, h39⟩ := run_inv_terminated acts main_init main_init_terminated
  generalize run main_init acts = s at hl h39
  have hsplit := buffer_split s.rx_buffer hl h39
  have hq : (s.rx_buffer.take 39).length = 39 := by
    rw [List.length_take]
    omega
  refine ⟨h39, ?_, ?_⟩
  · intro n
    have := (scanFrom_terminated (s.rx_buffer.take 39) [] [] n).2
    rw [← hsplit, hq] at this
    exact this
  · intro beyond n
    have h := (scanFrom_terminated (s.rx_buffer.take 39) beyond [] n).1
    rw [← hsplit] at h
    rw [← h]
    conv_lhs => rw [hsplit]
    simp

/-! ## Lemmas on content after the checksum field -/

end UART8051
